import Mathlib

/-!
# Offscreen EGL render driver (`egl_offscreen_render.cc`)

A shallow embedding of the program: the EGL / OpenGL driver and the file
stream are the environment, the program is a function from an environment
to the final state of the process (call trace, streams, file, exit status).
-/

namespace EglOffscreen

/-! ## Constants of `EGL/egl.h` and `GL/gl.h` used by the program -/

def EGL_SUCCESS : Int := 0x3000
def EGL_NOT_INITIALIZED : Int := 0x3001
def EGL_BAD_ACCESS : Int := 0x3002
def EGL_BAD_ALLOC : Int := 0x3003
def EGL_BAD_ATTRIBUTE : Int := 0x3004
def EGL_BAD_CONFIG : Int := 0x3005
def EGL_BAD_CONTEXT : Int := 0x3006
def EGL_BAD_CURRENT_SURFACE : Int := 0x3007
def EGL_BAD_DISPLAY : Int := 0x3008
def EGL_BAD_MATCH : Int := 0x3009
def EGL_BAD_NATIVE_PIXMAP : Int := 0x300A
def EGL_BAD_NATIVE_WINDOW : Int := 0x300B
def EGL_BAD_PARAMETER : Int := 0x300C
def EGL_BAD_SURFACE : Int := 0x300D
def EGL_CONTEXT_LOST : Int := 0x300E

def EGL_BLUE_SIZE : Int := 0x3022
def EGL_GREEN_SIZE : Int := 0x3023
def EGL_RED_SIZE : Int := 0x3024
def EGL_DEPTH_SIZE : Int := 0x3025
def EGL_SURFACE_TYPE : Int := 0x3033
def EGL_NONE : Int := 0x3038
def EGL_RENDERABLE_TYPE : Int := 0x3040
def EGL_VENDOR : Int := 0x3053
def EGL_VERSION : Int := 0x3054
def EGL_HEIGHT : Int := 0x3056
def EGL_WIDTH : Int := 0x3057
def EGL_OPENGL_API : Int := 0x30A2
def EGL_PBUFFER_BIT : Int := 0x0001
def EGL_OPENGL_BIT : Int := 0x0008
/-- The null native display id. -/
def EGL_DEFAULT_DISPLAY : Nat := 0
/-- The null context handle. -/
def EGL_NO_CONTEXT : Nat := 0

def GL_NO_ERROR : Nat := 0
def GL_FALSE : Nat := 0
def GL_TRIANGLES : Nat := 0x0004
def GL_DEPTH_BUFFER_BIT : Nat := 0x0100
def GL_COLOR_BUFFER_BIT : Nat := 0x4000
def GL_UNSIGNED_BYTE : Nat := 0x1401
def GL_FLOAT : Nat := 0x1406
def GL_RGB : Nat := 0x1907
def GL_OUT_OF_MEMORY : Nat := 0x0505
def GL_ARRAY_BUFFER : Nat := 0x8892
def GL_STATIC_DRAW : Nat := 0x88E4
def GL_FRAGMENT_SHADER : Nat := 0x8B30
def GL_VERTEX_SHADER : Nat := 0x8B31

/-! ## File-scope data of the program -/

def configAttribs : List Int :=
  [EGL_SURFACE_TYPE, EGL_PBUFFER_BIT,
   EGL_BLUE_SIZE, 8,
   EGL_GREEN_SIZE, 8,
   EGL_RED_SIZE, 8,
   EGL_DEPTH_SIZE, 8,
   EGL_RENDERABLE_TYPE, EGL_OPENGL_BIT,
   EGL_NONE]

def pbufferWidth : Nat := 512
def pbufferHeight : Nat := 512

def pbufferAttribs : List Int :=
  [EGL_WIDTH, (pbufferWidth : Int),
   EGL_HEIGHT, (pbufferHeight : Int),
   EGL_NONE]

/-- The switch of `eglErrorString`, case by case in source order; the
fall-through after the switch is the last branch. -/
def eglErrorString (error : Int) : String :=
  if error = EGL_SUCCESS then "No error"
  else if error = EGL_NOT_INITIALIZED then "EGL not initialized or failed to initialize"
  else if error = EGL_BAD_ACCESS then "Resource inaccessible"
  else if error = EGL_BAD_ALLOC then "Cannot allocate resources"
  else if error = EGL_BAD_ATTRIBUTE then "Unrecognized attribute or attribute value"
  else if error = EGL_BAD_CONTEXT then "Invalid EGL context"
  else if error = EGL_BAD_CONFIG then "Invalid EGL frame buffer configuration"
  else if error = EGL_BAD_CURRENT_SURFACE then "Current surface is no longer valid"
  else if error = EGL_BAD_DISPLAY then "Invalid EGL display"
  else if error = EGL_BAD_SURFACE then "Invalid surface"
  else if error = EGL_BAD_MATCH then "Inconsistent arguments"
  else if error = EGL_BAD_PARAMETER then "Invalid argument"
  else if error = EGL_BAD_NATIVE_PIXMAP then "Invalid native pixmap"
  else if error = EGL_BAD_NATIVE_WINDOW then "Invalid native window"
  else if error = EGL_CONTEXT_LOST then "Context lost"
  else "Unknown error "

/-- The fifteen codes that have a case label in `eglErrorString`. -/
def recognisedCodes : List Int :=
  [EGL_SUCCESS, EGL_NOT_INITIALIZED, EGL_BAD_ACCESS, EGL_BAD_ALLOC, EGL_BAD_ATTRIBUTE,
   EGL_BAD_CONTEXT, EGL_BAD_CONFIG, EGL_BAD_CURRENT_SURFACE, EGL_BAD_DISPLAY,
   EGL_BAD_SURFACE, EGL_BAD_MATCH, EGL_BAD_PARAMETER, EGL_BAD_NATIVE_PIXMAP,
   EGL_BAD_NATIVE_WINDOW, EGL_CONTEXT_LOST]

/-- The vertex data `points`: three vertices of three floats, all exactly
representable. -/
def points : List Rat :=
  [0, 1/2, 0,
   1/2, -1/2, 0,
   -1/2, -1/2, 0]

def vertex_shader : String :=
  "#version 400\n" ++
  "in vec3 vp;" ++
  "void main() \x7b" ++
  "  gl_Position = vec4(vp, 1.0);" ++
  "\x7d"

def fragment_shader : String :=
  "#version 400\n" ++
  "out vec4 frag_colour;" ++
  "void main() \x7b" ++
  "  frag_colour = vec4(0.0, 0.7, 0.8, 1.0);" ++
  "\x7d"

/-! ## State of the OpenGL context

The objects the program creates and the part of the context state its
calls read or write. Rasterisation and shader execution belong to the
driver: `glDrawArrays` hands the resolved inputs of the draw to the
environment. -/

/-- An RGBA colour, each component the decimal value the source writes;
conversion to the format of the framebuffer is left to the driver. -/
abbrev Color := Rat × Rat × Rat × Rat

/-- Colour and depth contents of the render target, by pixel column and row. -/
structure Target where
  color : Nat → Nat → Color
  depth : Nat → Nat → Rat

structure BufferObject where
  size : Nat
  data : List Rat
  usage : Nat

/-- State of one generic vertex attribute of a vertex-array object. -/
structure VertexAttrib where
  enabled : Bool
  size : Nat
  type : Nat
  normalized : Nat
  stride : Nat
  pointer : Nat
  /-- Buffer object bound to `GL_ARRAY_BUFFER` when the pointer was set. -/
  buffer : Nat

def VertexAttrib.initial : VertexAttrib :=
  { enabled := false, size := 4, type := GL_FLOAT, normalized := GL_FALSE, stride := 0,
    pointer := 0, buffer := 0 }

structure ShaderObject where
  type : Nat
  source : String
  /-- The source as of the last `glCompileShader`. -/
  compiled : Option String

structure ProgramObject where
  attached : List Nat
  /-- The shaders (type, compiled source) the last `glLinkProgram` linked. -/
  linked : Option (List (Nat × Option String))

/-- A vertex attribute as a draw reads it: its format and the data store of
its buffer. -/
structure VertexInput where
  enabled : Bool
  size : Nat
  type : Nat
  normalized : Nat
  stride : Nat
  pointer : Nat
  data : Option (List Rat)

/-- Everything a `glDrawArrays` call takes from the context besides the
render target. -/
structure DrawCall where
  mode : Nat
  first : Nat
  count : Nat
  program : Option (List (Nat × Option String))
  attribs : Nat → VertexInput

structure GLState where
  nextBuffer : Nat
  nextVertexArray : Nat
  /-- Shader and program objects share one name space. -/
  nextObject : Nat
  buffers : Nat → Option BufferObject
  vertexArrays : Nat → Option (Nat → VertexAttrib)
  shaders : Nat → Option ShaderObject
  programs : Nat → Option ProgramObject
  arrayBuffer : Nat
  vertexArray : Nat
  currentProgram : Nat
  clearColor : Color
  clearDepth : Rat
  /-- The error flag `glGetError` would return. -/
  error : Nat
  target : Target

/-- State of a newly created context rendering to a surface with the given
contents. -/
def GLState.initial (contents : Target) : GLState :=
  { nextBuffer := 1, nextVertexArray := 1, nextObject := 1,
    buffers := fun _ => none, vertexArrays := fun _ => none,
    shaders := fun _ => none, programs := fun _ => none,
    arrayBuffer := 0, vertexArray := 0, currentProgram := 0,
    clearColor := (0, 0, 0, 0), clearDepth := 1, error := GL_NO_ERROR,
    target := contents }

/-- Point update of an object table. -/
def setAt {α : Type} (f : Nat → α) (k : Nat) (v : α) : Nat → α :=
  fun n => if n = k then v else f n

/-! ## Environment, call trace and process state -/

/-- One entry of the call trace: a call of the EGL / OpenGL API or of the
output stream with its arguments, or a call of one of the program's own
functions `render` and `egl_check_error`. -/
inductive Event where
  | eglGetDisplay (display_id : Nat)
  /-- Call of `egl_check_error(msg)`; `e` is what `eglGetError` returned in it. -/
  | egl_check_error (msg : String) (e : Int)
  | eglInitialize (dpy : Nat)
  | eglQueryString (dpy : Nat) (name : Int)
  | eglChooseConfig (dpy : Nat) (attrib_list : List Int) (config_size : Nat)
  | eglCreatePbufferSurface (dpy config : Nat) (attrib_list : List Int)
  | eglBindAPI (api : Int)
  | eglCreateContext (dpy config share_context : Nat) (attrib_list : Option (List Int))
  | eglMakeCurrent (dpy draw read ctx : Nat)
  | eglWaitGL
  | eglTerminate (dpy : Nat)
  | render
  | glGenBuffers (n : Nat)
  | glBindBuffer (target buffer : Nat)
  | glBufferData (target size : Nat) (data : List Rat) (usage : Nat)
  | glGenVertexArrays (n : Nat)
  | glBindVertexArray (array : Nat)
  | glEnableVertexAttribArray (index : Nat)
  | glVertexAttribPointer (index size type normalized stride pointer : Nat)
  | glCreateShader (type : Nat)
  | glShaderSource (shader count : Nat) (string : String)
  | glCompileShader (shader : Nat)
  | glCreateProgram
  | glAttachShader (program shader : Nat)
  | glLinkProgram (program : Nat)
  | glClearColor (red green blue alpha : Rat)
  | glClear (mask : Nat)
  | glUseProgram (program : Nat)
  | glDrawArrays (mode first count : Nat)
  | glFlush
  | malloc (size : Nat)
  | glReadPixels (x y width height format type : Nat)
  | ofs_open (filename : String)
  | ofs_insert (text : String)
  | ofs_write (count : Nat)
  | ofs_close
  deriving DecidableEq

/-- What the driver and the file system answer. Each EGL entry point records an error code for
the calling thread; `eglGetError` returns the code recorded by the latest
EGL call. OpenGL commands report errors through the context's own flag. -/
structure Env where
  display : Nat
  errGetDisplay : Int
  initialized : Bool
  major : Int
  minor : Int
  errInitialize : Int
  /-- Result string and recorded error code of `eglQueryString`, by name. -/
  queryString : Int → String × Int
  /-- Configuration written to the output array when one matches. -/
  config : Nat
  numConfigs : Int
  errChooseConfig : Int
  /-- Indeterminate initial value of the local variable `eglCfg`. -/
  stackConfig : Nat
  surface : Nat
  errCreatePbufferSurface : Int
  errBindAPI : Int
  context : Nat
  errCreateContext : Int
  errMakeCurrent : Int
  /-- Code recorded by the `eglWaitGL` after the render loop. -/
  errWaitGL : Int
  /-- Code recorded by the `eglWaitGL` before `eglTerminate`. -/
  errWaitGLFinal : Int
  errTerminate : Int
  /-- Contents of the pbuffer when it is created. -/
  surfaceContents : Target
  /-- Rasterisation of one draw call onto the target. -/
  draw : DrawCall → Target → Target
  /-- Error `glReadPixels` raises, `GL_NO_ERROR` if none. -/
  glReadPixelsError : Nat
  /-- Byte `i` of the packed RGB image of a target. -/
  readPixels : Target → Nat → Nat
  /-- Contents of freshly allocated memory. -/
  heap : Nat → Nat
  /-- Whether the file system lets `egl.pnm` be opened for writing. -/
  openOk : Bool
  /-- How many bytes the file system stores of a write of `k` bytes issued
  when the file holds `n` bytes: `accepts n k`, all of them when it is `k`. -/
  accepts : Nat → Nat → Nat

structure World where
  trace : List Event
  /-- Error code recorded by the latest EGL call. -/
  eglError : Int
  gl : GLState
  stdout : String
  stderr : String
  /-- Memory of the block `buffer` points to. -/
  buffer : Nat → Nat
  /-- Data this run has stored in `egl.pnm`; `none` while the stream has no
  open file, before the open or after an open that failed. -/
  file : Option (List Nat)
  /-- The stream `ofs` is in a failed state. -/
  ofsFail : Bool

def World.initial (env : Env) : World :=
  { trace := [], eglError := EGL_SUCCESS, gl := GLState.initial env.surfaceContents,
    stdout := "", stderr := "", buffer := fun _ => 0, file := none, ofsFail := false }

/-- Record a call that is not an EGL entry point. -/
def World.log (w : World) (e : Event) : World :=
  { w with trace := w.trace ++ [e] }

/-- Record an EGL call together with the error code it leaves behind. -/
def World.egl (w : World) (e : Event) (err : Int) : World :=
  { w with trace := w.trace ++ [e], eglError := err }

/-- Record an OpenGL command and its effect on the context. -/
def World.glCall (w : World) (e : Event) (f : GLState → GLState) : World :=
  { w with trace := w.trace ++ [e], gl := f w.gl }

/-- A process that is still running, or has terminated with a status. -/
inductive Run where
  | cont (w : World)
  | exit (status : Nat) (w : World)

def Run.bind (r : Run) (k : World → Run) : Run :=
  match r with
  | Run.cont w => k w
  | Run.exit status w => Run.exit status w

def Run.world : Run → World
  | Run.cont w => w
  | Run.exit _ w => w

def Run.status : Run → Option Nat
  | Run.cont _ => none
  | Run.exit status _ => some status

/-! ## The EGL entry points the program calls -/

def eglGetDisplay (env : Env) (display_id : Nat) (w : World) : Nat × World :=
  (env.display, w.egl (Event.eglGetDisplay display_id) env.errGetDisplay)

/-- Returns the boolean result and the values stored in `major`, `minor`. -/
def eglInitialize (env : Env) (dpy : Nat) (w : World) : Bool × Int × Int × World :=
  (env.initialized, env.major, env.minor, w.egl (Event.eglInitialize dpy) env.errInitialize)

def eglQueryString (env : Env) (dpy : Nat) (name : Int) (w : World) : String × World :=
  ((env.queryString name).1, w.egl (Event.eglQueryString dpy name) (env.queryString name).2)

/-- Returns the values left in `*configs` and `*num_config`: `configs[0]` is
written only when a configuration matches, otherwise it keeps `old`. -/
def eglChooseConfig (env : Env) (dpy : Nat) (attrib_list : List Int) (old : Nat)
    (config_size : Nat) (w : World) : Nat × Int × World :=
  (if 0 < env.numConfigs ∧ 0 < config_size then env.config else old, env.numConfigs,
    w.egl (Event.eglChooseConfig dpy attrib_list config_size) env.errChooseConfig)

def eglCreatePbufferSurface (env : Env) (dpy config : Nat) (attrib_list : List Int)
    (w : World) : Nat × World :=
  (env.surface, w.egl (Event.eglCreatePbufferSurface dpy config attrib_list)
    env.errCreatePbufferSurface)

def eglBindAPI (env : Env) (api : Int) (w : World) : World :=
  w.egl (Event.eglBindAPI api) env.errBindAPI

def eglCreateContext (env : Env) (dpy config share_context : Nat)
    (attrib_list : Option (List Int)) (w : World) : Nat × World :=
  (env.context, w.egl (Event.eglCreateContext dpy config share_context attrib_list)
    env.errCreateContext)

def eglMakeCurrent (env : Env) (dpy draw read ctx : Nat) (w : World) : World :=
  w.egl (Event.eglMakeCurrent dpy draw read ctx) env.errMakeCurrent

/-- The code the call records is passed in: the two calls of the program may
record different codes. -/
def eglWaitGL (err : Int) (w : World) : World :=
  w.egl Event.eglWaitGL err

def eglTerminate (env : Env) (dpy : Nat) (w : World) : World :=
  w.egl (Event.eglTerminate dpy) env.errTerminate

/-- The body of `egl_check_error`: `eglGetError` returns the recorded code and
resets it; a code other than `EGL_SUCCESS` prints the diagnostic line and
calls `exit(1)`. -/
def egl_check_error (msg : String) (w : World) : Run :=
  let e := w.eglError
  let w := { w with eglError := EGL_SUCCESS, trace := w.trace ++ [Event.egl_check_error msg e] }
  if e ≠ EGL_SUCCESS then
    Run.exit 1 { w with stderr := w.stderr ++ ("EGL Error (" ++ msg ++ "): " ++ eglErrorString e ++ "\n") }
  else
    Run.cont w

/-! ## The OpenGL commands the program issues -/

def glGenBuffers (n : Nat) (w : World) : Nat × World :=
  (w.gl.nextBuffer, w.glCall (Event.glGenBuffers n) fun g =>
    { g with nextBuffer := g.nextBuffer + n })

def glBindBuffer (target buffer : Nat) (w : World) : World :=
  w.glCall (Event.glBindBuffer target buffer) fun g =>
    if target = GL_ARRAY_BUFFER then
      { g with
        arrayBuffer := buffer
        buffers :=
          match g.buffers buffer with
          | some _ => g.buffers
          | none => setAt g.buffers buffer (some { size := 0, data := [], usage := GL_STATIC_DRAW }) }
    else g

/-- The `data` list holds the floats at the source pointer; `size` is in
bytes, four to a float. -/
def glBufferData (target size : Nat) (data : List Rat) (usage : Nat) (w : World) : World :=
  w.glCall (Event.glBufferData target size data usage) fun g =>
    if target = GL_ARRAY_BUFFER then
      { g with
        buffers := setAt g.buffers g.arrayBuffer
          (some { size := size, data := data.take (size / 4), usage := usage }) }
    else g

def glGenVertexArrays (n : Nat) (w : World) : Nat × World :=
  (w.gl.nextVertexArray, w.glCall (Event.glGenVertexArrays n) fun g =>
    { g with nextVertexArray := g.nextVertexArray + n })

def glBindVertexArray (array : Nat) (w : World) : World :=
  w.glCall (Event.glBindVertexArray array) fun g =>
    { g with
      vertexArray := array
      vertexArrays :=
        match g.vertexArrays array with
        | some _ => g.vertexArrays
        | none => setAt g.vertexArrays array (some fun _ => VertexAttrib.initial) }

def glEnableVertexAttribArray (index : Nat) (w : World) : World :=
  w.glCall (Event.glEnableVertexAttribArray index) fun g =>
    { g with
      vertexArrays := setAt g.vertexArrays g.vertexArray
        ((g.vertexArrays g.vertexArray).map fun va =>
          setAt va index { va index with enabled := true }) }

def glVertexAttribPointer (index size type normalized stride pointer : Nat) (w : World) :
    World :=
  w.glCall (Event.glVertexAttribPointer index size type normalized stride pointer) fun g =>
    { g with
      vertexArrays := setAt g.vertexArrays g.vertexArray
        ((g.vertexArrays g.vertexArray).map fun va =>
          setAt va index
            { va index with
              size := size, type := type, normalized := normalized, stride := stride,
              pointer := pointer, buffer := g.arrayBuffer }) }

def glCreateShader (type : Nat) (w : World) : Nat × World :=
  (w.gl.nextObject, w.glCall (Event.glCreateShader type) fun g =>
    { g with
      nextObject := g.nextObject + 1
      shaders := setAt g.shaders g.nextObject
        (some { type := type, source := "", compiled := none }) })

def glShaderSource (shader count : Nat) (string : String) (w : World) : World :=
  w.glCall (Event.glShaderSource shader count string) fun g =>
    { g with
      shaders := setAt g.shaders shader
        ((g.shaders shader).map fun s => { s with source := string }) }

def glCompileShader (shader : Nat) (w : World) : World :=
  w.glCall (Event.glCompileShader shader) fun g =>
    { g with
      shaders := setAt g.shaders shader
        ((g.shaders shader).map fun s => { s with compiled := some s.source }) }

def glCreateProgram (w : World) : Nat × World :=
  (w.gl.nextObject, w.glCall Event.glCreateProgram fun g =>
    { g with
      nextObject := g.nextObject + 1
      programs := setAt g.programs g.nextObject (some { attached := [], linked := none }) })

def glAttachShader (program shader : Nat) (w : World) : World :=
  w.glCall (Event.glAttachShader program shader) fun g =>
    { g with
      programs := setAt g.programs program
        ((g.programs program).map fun p => { p with attached := p.attached ++ [shader] }) }

def glLinkProgram (program : Nat) (w : World) : World :=
  w.glCall (Event.glLinkProgram program) fun g =>
    { g with
      programs := setAt g.programs program
        ((g.programs program).map fun p =>
          { p with
            linked := some (p.attached.map fun n =>
              match g.shaders n with
              | some s => (s.type, s.compiled)
              | none => (0, none)) }) }

def glClearColor (red green blue alpha : Rat) (w : World) : World :=
  w.glCall (Event.glClearColor red green blue alpha) fun g =>
    { g with clearColor := (red, green, blue, alpha) }

/-- With the scissor test off and all write masks on, as the program leaves
them, a clear writes every pixel of each selected buffer. -/
def glClear (mask : Nat) (w : World) : World :=
  w.glCall (Event.glClear mask) fun g =>
    { g with
      target :=
        { color :=
            if mask &&& GL_COLOR_BUFFER_BIT ≠ 0 then fun _ _ => g.clearColor
            else g.target.color
          depth :=
            if mask &&& GL_DEPTH_BUFFER_BIT ≠ 0 then fun _ _ => g.clearDepth
            else g.target.depth } }

def glUseProgram (program : Nat) (w : World) : World :=
  w.glCall (Event.glUseProgram program) fun g => { g with currentProgram := program }

/-- The vertex attribute `i` of the bound vertex-array object. -/
def GLState.attrib (g : GLState) (i : Nat) : VertexAttrib :=
  match g.vertexArrays g.vertexArray with
  | some va => va i
  | none => VertexAttrib.initial

/-- The inputs a draw resolves from the current program and the bound
vertex-array object; only an enabled array is read from its buffer. -/
def GLState.drawCall (g : GLState) (mode first count : Nat) : DrawCall :=
  { mode := mode, first := first, count := count
    program := (g.programs g.currentProgram).bind fun p => p.linked
    attribs := fun i =>
      { enabled := (g.attrib i).enabled, size := (g.attrib i).size, type := (g.attrib i).type,
        normalized := (g.attrib i).normalized, stride := (g.attrib i).stride,
        pointer := (g.attrib i).pointer,
        data :=
          if (g.attrib i).enabled then (g.buffers (g.attrib i).buffer).map fun b => b.data
          else none } }

def glDrawArrays (env : Env) (mode first count : Nat) (w : World) : World :=
  w.glCall (Event.glDrawArrays mode first count) fun g =>
    { g with target := env.draw (g.drawCall mode first count) g.target }

def glFlush (w : World) : World :=
  w.glCall Event.glFlush fun g => g

/-- On success the packed image of the target is stored at the destination;
on error the destination is left as it was and the error flag is set. -/
def glReadPixels (env : Env) (x y width height format type : Nat) (w : World) : World :=
  { w with
    trace := w.trace ++ [Event.glReadPixels x y width height format type]
    gl := { w.gl with
      error := if w.gl.error = GL_NO_ERROR then env.glReadPixelsError else w.gl.error }
    buffer :=
      if env.glReadPixelsError = GL_NO_ERROR then
        fun i => if i < width * height * 3 then env.readPixels w.gl.target i % 256 else w.buffer i
      else w.buffer }

/-! ## Host memory and the output stream -/

def malloc (env : Env) (size : Nat) (w : World) : World :=
  { w with trace := w.trace ++ [Event.malloc size], buffer := env.heap }

/-- The bytes of a text; every text the program writes is ASCII. -/
def textBytes (s : String) : List Nat :=
  s.toList.map Char.toNat

/-- File and failed state of the stream after an output of `bytes`. A
stream that has failed or has no open file stores nothing. Otherwise the
file takes as many of the bytes as the file system accepts, and the stream
fails when that is not all of them. Nothing in the program tests the
stream. -/
def streamPut (env : Env) (bytes : List Nat) (s : Option (List Nat) × Bool) :
    Option (List Nat) × Bool :=
  match s with
  | (some old, false) =>
    (some (old ++ bytes.take (env.accepts old.length bytes.length)),
      decide (env.accepts old.length bytes.length < bytes.length))
  | (none, false) => (none, true)
  | (f, true) => (f, true)

/-- The call `ofs.open(filename)`: an open that succeeds truncates the file,
one that fails leaves the stream failed and without a file. -/
def ofs_open (env : Env) (filename : String) (w : World) : World :=
  { w with
    trace := w.trace ++ [Event.ofs_open filename]
    file := if env.openOk then some [] else none
    ofsFail := !env.openOk }

/-- Stream insertion of a text; integers are inserted as their decimal text. -/
def ofs_insert (env : Env) (text : String) (w : World) : World :=
  { w with
    trace := w.trace ++ [Event.ofs_insert text]
    file := (streamPut env (textBytes text) (w.file, w.ofsFail)).1
    ofsFail := (streamPut env (textBytes text) (w.file, w.ofsFail)).2 }

/-- The call `ofs.write((char*)buffer, count)`. -/
def ofs_write (env : Env) (count : Nat) (w : World) : World :=
  { w with
    trace := w.trace ++ [Event.ofs_write count]
    file := (streamPut env ((List.range count).map w.buffer) (w.file, w.ofsFail)).1
    ofsFail := (streamPut env ((List.range count).map w.buffer) (w.file, w.ofsFail)).2 }

def ofs_close (w : World) : World :=
  w.log Event.ofs_close

def printf (text : String) (w : World) : World :=
  { w with stdout := w.stdout ++ text }

/-! ## `render` and `main` -/

def render (env : Env) (w : World) : World :=
  let w := w.log Event.render
  let (vbo, w) := glGenBuffers 1 w
  let w := glBindBuffer GL_ARRAY_BUFFER vbo w
  let w := glBufferData GL_ARRAY_BUFFER (9 * 4) points GL_STATIC_DRAW w

  let (vao, w) := glGenVertexArrays 1 w
  let w := glBindVertexArray vao w
  let w := glEnableVertexAttribArray 0 w
  let w := glBindBuffer GL_ARRAY_BUFFER vbo w
  let w := glVertexAttribPointer 0 3 GL_FLOAT GL_FALSE 0 0 w

  let (vs, w) := glCreateShader GL_VERTEX_SHADER w
  let w := glShaderSource vs 1 vertex_shader w
  let w := glCompileShader vs w
  let (fs, w) := glCreateShader GL_FRAGMENT_SHADER w
  let w := glShaderSource fs 1 fragment_shader w
  let w := glCompileShader fs w

  let (shader_programme, w) := glCreateProgram w
  let w := glAttachShader shader_programme fs w
  let w := glAttachShader shader_programme vs w
  let w := glLinkProgram shader_programme w

  let w := glClearColor (3/10) (3/10) (3/10) 1 w
  let w := glClear (GL_COLOR_BUFFER_BIT ||| GL_DEPTH_BUFFER_BIT) w
  let w := glUseProgram shader_programme w
  let w := glBindVertexArray vao w
  let w := glDrawArrays env GL_TRIANGLES 0 3 w
  glFlush w

/-- The loop `for (i = 0; i < n; i++) render();`, by the number of
iterations still to run. -/
def renderLoop (env : Env) : Nat → World → World
  | 0, w => w
  | n + 1, w => renderLoop env n (render env w)

def main (env : Env) : Run :=
  let w := World.initial env
  -- 1. Initialize EGL
  let (eglDpy, w) := eglGetDisplay env EGL_DEFAULT_DISPLAY w
  (egl_check_error "eglGetDisplay" w).bind fun w =>
  let (_b, _major, _minor, w) := eglInitialize env eglDpy w
  (egl_check_error "eglInitialize" w).bind fun w =>
  let (vendor, w) := eglQueryString env eglDpy EGL_VENDOR w
  let w := printf ("EGL Vendor: " ++ vendor ++ "\n") w
  let (version, w) := eglQueryString env eglDpy EGL_VERSION w
  let w := printf ("EGL Version: " ++ version ++ "\n") w
  -- 2. Select an appropriate configuration
  let (eglCfg, _numConfigs, w) := eglChooseConfig env eglDpy configAttribs env.stackConfig 1 w
  (egl_check_error "eglChooseConfig" w).bind fun w =>
  -- 3. Create a surface
  let (eglSurf, w) := eglCreatePbufferSurface env eglDpy eglCfg pbufferAttribs w
  (egl_check_error "eglCreatePbufferSurface" w).bind fun w =>
  -- 4. Bind the API
  let w := eglBindAPI env EGL_OPENGL_API w
  (egl_check_error "eglBindAPI" w).bind fun w =>
  -- 5. Create a context and make it current
  let (eglCtx, w) := eglCreateContext env eglDpy eglCfg EGL_NO_CONTEXT none w
  let w := eglMakeCurrent env eglDpy eglSurf eglSurf eglCtx w
  (egl_check_error "eglMakeCurrent" w).bind fun w =>
  let w := renderLoop env 10 w
  let w := eglWaitGL env.errWaitGL w
  let w := malloc env (pbufferWidth * pbufferHeight * 3) w
  let w := glReadPixels env 0 0 pbufferWidth pbufferHeight GL_RGB GL_UNSIGNED_BYTE w
  (egl_check_error "glReadPixels" w).bind fun w =>
  let w := ofs_open env "egl.pnm" w
  let w := ofs_insert env "P6\n" w
  let w := ofs_insert env (toString pbufferWidth) w
  let w := ofs_insert env " " w
  let w := ofs_insert env (toString pbufferHeight) w
  let w := ofs_insert env "\n255\n" w
  let w := ofs_write env (pbufferWidth * pbufferHeight * 3) w
  let w := ofs_close w
  -- 6. Terminate EGL when finished
  let w := eglWaitGL env.errWaitGLFinal w
  let w := eglTerminate env eglDpy w
  Run.exit 0 w

/-! ## Properties of call traces -/

def Event.isRender : Event → Bool
  | Event.render => true
  | _ => false

def Event.isFlush : Event → Bool
  | Event.glFlush => true
  | _ => false

def Event.isDraw : Event → Bool
  | Event.glDrawArrays _ _ _ => true
  | _ => false

def Event.isMakeCurrent : Event → Bool
  | Event.eglMakeCurrent _ _ _ _ => true
  | _ => false

def Event.isReadPixels : Event → Bool
  | Event.glReadPixels _ _ _ _ _ _ => true
  | _ => false

def Event.isOpen : Event → Bool
  | Event.ofs_open _ => true
  | _ => false

def Event.isStream : Event → Bool
  | Event.ofs_open _ => true
  | Event.ofs_insert _ => true
  | Event.ofs_write _ => true
  | Event.ofs_close => true
  | _ => false

def Event.isCreateSurface : Event → Bool
  | Event.eglCreatePbufferSurface _ _ _ => true
  | _ => false

def Event.isTerminate : Event → Bool
  | Event.eglTerminate _ => true
  | _ => false

/-- The event is a call `egl_check_error(msg)` that observed `EGL_SUCCESS`. -/
def Event.isPassed (msg : String) : Event → Bool
  | Event.egl_check_error m e => m == msg && e == EGL_SUCCESS
  | _ => false

/-- The event is a call of `render` or a command `render` issues. -/
def Event.inRender : Event → Bool
  | Event.render => true
  | Event.glGenBuffers _ => true
  | Event.glBindBuffer _ _ => true
  | Event.glBufferData _ _ _ _ => true
  | Event.glGenVertexArrays _ => true
  | Event.glBindVertexArray _ => true
  | Event.glEnableVertexAttribArray _ => true
  | Event.glVertexAttribPointer _ _ _ _ _ _ => true
  | Event.glCreateShader _ => true
  | Event.glShaderSource _ _ _ => true
  | Event.glCompileShader _ => true
  | Event.glCreateProgram => true
  | Event.glAttachShader _ _ => true
  | Event.glLinkProgram _ => true
  | Event.glClearColor _ _ _ _ => true
  | Event.glClear _ => true
  | Event.glUseProgram _ => true
  | Event.glDrawArrays _ _ _ => true
  | Event.glFlush => true
  | _ => false

/-- The event is one of the lifecycle steps of `main`: an EGL call other than
a string query, a call of `render`, the readback, or a call on the output
stream. -/
def Event.isStep : Event → Bool
  | Event.eglGetDisplay _ => true
  | Event.eglInitialize _ => true
  | Event.eglChooseConfig _ _ _ => true
  | Event.eglCreatePbufferSurface _ _ _ => true
  | Event.eglBindAPI _ => true
  | Event.eglCreateContext _ _ _ _ => true
  | Event.eglMakeCurrent _ _ _ _ => true
  | Event.eglWaitGL => true
  | Event.eglTerminate _ => true
  | Event.render => true
  | Event.glReadPixels _ _ _ _ _ _ => true
  | Event.ofs_open _ => true
  | Event.ofs_insert _ => true
  | Event.ofs_write _ => true
  | Event.ofs_close => true
  | _ => false

/-- Every check recorded in the trace observed `EGL_SUCCESS`. -/
def ChecksPass (tr : List Event) : Prop :=
  ∀ msg e, Event.egl_check_error msg e ∈ tr → e = EGL_SUCCESS

/-- Whenever an event satisfying `q` occurs in the trace, the events before
it satisfy `P`. -/
def EveryPrefix (q : Event → Bool) (P : List Event → Prop) (tr : List Event) : Prop :=
  ∀ pre x post, tr = pre ++ x :: post → q x = true → P pre

/-- Events satisfying the given predicates occur in the list, in that order. -/
def InOrder (ps : List (Event → Bool)) (l : List Event) : Prop :=
  ∃ ys, List.Sublist ys l ∧ List.Forall₂ (fun p y => p y = true) ps ys

/-- Every call of `render` in the list is followed by a `glFlush` before the
next call of `render`. -/
def RenderFlushed (l : List Event) : Prop :=
  ∀ a b, l = a ++ Event.render :: b →
    ∃ c d, b = c ++ Event.glFlush :: d ∧ ∀ y ∈ c, y ≠ Event.render

/-- The ten calls of `render` have each issued their `glFlush`, and
`eglWaitGL` has been called after them. -/
def FlushedAndWaited (pre : List Event) : Prop :=
  ∃ a b, pre = a ++ Event.eglWaitGL :: b ∧ a.countP Event.isRender = 10 ∧
    a.countP Event.isFlush = 10 ∧ RenderFlushed a

def inOrderScan : List (Event → Bool) → List Event → Bool
  | [], _ => true
  | _ :: _, [] => false
  | p :: ps, x :: xs => if p x then inOrderScan ps xs else inOrderScan (p :: ps) xs

def flushNext : List Event → Bool
  | [] => false
  | x :: xs => if x.isFlush then true else if x.isRender then false else flushNext xs

def flushedScan : List Event → Bool
  | [] => true
  | x :: xs => (!(x.isRender) || flushNext xs) && flushedScan xs

/-! ## The rendered image -/

/-- Names `glGenVertexArrays` has not yet returned denote no object. -/
def GLState.Fresh (g : GLState) : Prop :=
  ∀ n, g.nextVertexArray ≤ n → g.vertexArrays n = none

/-- The target right after the clear of `render`. -/
def clearedTarget (depth : Rat) : Target :=
  { color := fun _ _ => (3/10, 3/10, 3/10, 1), depth := fun _ _ => depth }

/-- The inputs of the draw of `render`. -/
def triangleDraw : DrawCall :=
  { mode := GL_TRIANGLES, first := 0, count := 3
    program := some [(GL_FRAGMENT_SHADER, some fragment_shader),
      (GL_VERTEX_SHADER, some vertex_shader)]
    attribs := fun i =>
      if i = 0 then
        { enabled := true, size := 3, type := GL_FLOAT, normalized := GL_FALSE, stride := 0,
          pointer := 0, data := some points }
      else
        { enabled := false, size := 4, type := GL_FLOAT, normalized := GL_FALSE, stride := 0,
          pointer := 0, data := none } }

/-! ## The run of `main` in closed form

The traces and final states `main` is proved to produce, by the first check
that fails. -/

/-- The calls one `render()` issues from a context in state `g`. -/
def renderEvents (g : GLState) : List Event :=
  [Event.render,
   Event.glGenBuffers 1,
   Event.glBindBuffer GL_ARRAY_BUFFER g.nextBuffer,
   Event.glBufferData GL_ARRAY_BUFFER (9 * 4) points GL_STATIC_DRAW,
   Event.glGenVertexArrays 1,
   Event.glBindVertexArray g.nextVertexArray,
   Event.glEnableVertexAttribArray 0,
   Event.glBindBuffer GL_ARRAY_BUFFER g.nextBuffer,
   Event.glVertexAttribPointer 0 3 GL_FLOAT GL_FALSE 0 0,
   Event.glCreateShader GL_VERTEX_SHADER,
   Event.glShaderSource g.nextObject 1 vertex_shader,
   Event.glCompileShader g.nextObject,
   Event.glCreateShader GL_FRAGMENT_SHADER,
   Event.glShaderSource (g.nextObject + 1) 1 fragment_shader,
   Event.glCompileShader (g.nextObject + 1),
   Event.glCreateProgram,
   Event.glAttachShader (g.nextObject + 1 + 1) (g.nextObject + 1),
   Event.glAttachShader (g.nextObject + 1 + 1) g.nextObject,
   Event.glLinkProgram (g.nextObject + 1 + 1),
   Event.glClearColor (3/10) (3/10) (3/10) 1,
   Event.glClear (GL_COLOR_BUFFER_BIT ||| GL_DEPTH_BUFFER_BIT),
   Event.glUseProgram (g.nextObject + 1 + 1),
   Event.glBindVertexArray g.nextVertexArray,
   Event.glDrawArrays GL_TRIANGLES 0 3,
   Event.glFlush]

/-- The context state after one `render()` started in state `g`. -/
def renderGL (env : Env) (g : GLState) : GLState :=
  (render env { trace := [], eglError := EGL_SUCCESS, gl := g, stdout := "", stderr := "",
                buffer := fun _ => 0, file := none, ofsFail := false }).gl

/-- The calls `n` consecutive `render()` issue from a context in state `g`. -/
def loopEvents (env : Env) : Nat → GLState → List Event
  | 0, _ => []
  | n + 1, g => renderEvents g ++ loopEvents env n (renderGL env g)

/-- The context state after `n` consecutive `render()`. -/
def loopGL (env : Env) : Nat → GLState → GLState
  | 0, g => g
  | n + 1, g => loopGL env n (renderGL env g)

/-- The diagnostic line of `egl_check_error`. -/
def diagnostic (msg : String) (e : Int) : String :=
  "EGL Error (" ++ msg ++ "): " ++ eglErrorString e ++ "\n"

/-- The value `main` holds in `eglCfg` after `eglChooseConfig`. -/
def cfgOf (env : Env) : Nat :=
  if 0 < env.numConfigs then env.config else env.stackConfig

def trace1 (e : Int) : List Event :=
  [Event.eglGetDisplay EGL_DEFAULT_DISPLAY, Event.egl_check_error "eglGetDisplay" e]

def trace2 (env : Env) (e : Int) : List Event :=
  trace1 EGL_SUCCESS ++
    [Event.eglInitialize env.display, Event.egl_check_error "eglInitialize" e]

def trace3 (env : Env) (e : Int) : List Event :=
  trace2 env EGL_SUCCESS ++
    [Event.eglQueryString env.display EGL_VENDOR, Event.eglQueryString env.display EGL_VERSION,
     Event.eglChooseConfig env.display configAttribs 1,
     Event.egl_check_error "eglChooseConfig" e]

def trace4 (env : Env) (e : Int) : List Event :=
  trace3 env EGL_SUCCESS ++
    [Event.eglCreatePbufferSurface env.display (cfgOf env) pbufferAttribs,
     Event.egl_check_error "eglCreatePbufferSurface" e]

def trace5 (env : Env) (e : Int) : List Event :=
  trace4 env EGL_SUCCESS ++
    [Event.eglBindAPI EGL_OPENGL_API, Event.egl_check_error "eglBindAPI" e]

def trace6 (env : Env) (e : Int) : List Event :=
  trace5 env EGL_SUCCESS ++
    [Event.eglCreateContext env.display (cfgOf env) EGL_NO_CONTEXT none,
     Event.eglMakeCurrent env.display env.surface env.surface env.context,
     Event.egl_check_error "eglMakeCurrent" e]

def trace7 (env : Env) (e : Int) : List Event :=
  trace6 env EGL_SUCCESS ++ loopEvents env 10 (GLState.initial env.surfaceContents) ++
    [Event.eglWaitGL, Event.malloc (pbufferWidth * pbufferHeight * 3),
     Event.glReadPixels 0 0 pbufferWidth pbufferHeight GL_RGB GL_UNSIGNED_BYTE,
     Event.egl_check_error "glReadPixels" e]

def trace8 (env : Env) : List Event :=
  trace7 env EGL_SUCCESS ++
    [Event.ofs_open "egl.pnm", Event.ofs_insert "P6\n", Event.ofs_insert (toString pbufferWidth),
     Event.ofs_insert " ", Event.ofs_insert (toString pbufferHeight), Event.ofs_insert "\n255\n",
     Event.ofs_write (pbufferWidth * pbufferHeight * 3), Event.ofs_close,
     Event.eglWaitGL, Event.eglTerminate env.display]

/-- The events of a run up to the call of `glReadPixels`. -/
def beforeRead (env : Env) : List Event :=
  trace6 env EGL_SUCCESS ++ loopEvents env 10 (GLState.initial env.surfaceContents) ++
    [Event.eglWaitGL, Event.malloc (pbufferWidth * pbufferHeight * 3)]

/-- What `main` has printed on the standard output after the two queries. -/
def stdoutText (env : Env) : String :=
  "" ++ ("EGL Vendor: " ++ (env.queryString EGL_VENDOR).1 ++ "\n") ++
    ("EGL Version: " ++ (env.queryString EGL_VERSION).1 ++ "\n")

/-- The context state when `glReadPixels` is issued. -/
def glAtRead (env : Env) : GLState :=
  loopGL env 10 (GLState.initial env.surfaceContents)

def glAfterRead (env : Env) : GLState :=
  { glAtRead env with
    error := if (glAtRead env).error = GL_NO_ERROR then env.glReadPixelsError
      else (glAtRead env).error }

/-- The block `buffer` after `glReadPixels`. -/
def bufferAfterRead (env : Env) : Nat → Nat :=
  if env.glReadPixelsError = GL_NO_ERROR then
    fun i => if i < pbufferWidth * pbufferHeight * 3
      then env.readPixels (glAtRead env).target i % 256 else env.heap i
  else env.heap

/-- File and failed state of the stream after the open and the six outputs
of `main`. -/
def streamAfter (env : Env) : Option (List Nat) × Bool :=
  streamPut env ((List.range (pbufferWidth * pbufferHeight * 3)).map (bufferAfterRead env))
    (streamPut env (textBytes "\n255\n")
      (streamPut env (textBytes (toString pbufferHeight))
        (streamPut env (textBytes " ")
          (streamPut env (textBytes (toString pbufferWidth))
            (streamPut env (textBytes "P6\n")
              (if env.openOk then some [] else none, !env.openOk))))))

/-- The final state of a run that stops at a failing check before the context is used. -/
def earlyExit (env : Env) (tr : List Event) (out msg : String) (e : Int) : Run :=
  Run.exit 1
    { trace := tr, eglError := EGL_SUCCESS, gl := GLState.initial env.surfaceContents,
      stdout := out, stderr := "" ++ diagnostic msg e, buffer := fun _ => 0, file := none,
      ofsFail := false }

/-- The final state of a run that stops at the check after `glReadPixels`. -/
def lateExit (env : Env) : Run :=
  Run.exit 1
    { trace := trace7 env env.errWaitGL, eglError := EGL_SUCCESS, gl := glAfterRead env,
      stdout := stdoutText env, stderr := "" ++ diagnostic "glReadPixels" env.errWaitGL,
      buffer := bufferAfterRead env, file := none, ofsFail := false }

/-- The final state of a run in which every check passes. -/
def successRun (env : Env) : Run :=
  Run.exit 0
    { trace := trace8 env, eglError := env.errTerminate, gl := glAfterRead env,
      stdout := stdoutText env, stderr := "", buffer := bufferAfterRead env,
      file := (streamAfter env).1, ofsFail := (streamAfter env).2 }

/-- The run of `main`, by the first check that observes a code other than
`EGL_SUCCESS`. -/
def mainResult (env : Env) : Run :=
  if env.errGetDisplay ≠ EGL_SUCCESS then
    earlyExit env (trace1 env.errGetDisplay) "" "eglGetDisplay" env.errGetDisplay
  else if env.errInitialize ≠ EGL_SUCCESS then
    earlyExit env (trace2 env env.errInitialize) "" "eglInitialize" env.errInitialize
  else if env.errChooseConfig ≠ EGL_SUCCESS then
    earlyExit env (trace3 env env.errChooseConfig) (stdoutText env) "eglChooseConfig"
      env.errChooseConfig
  else if env.errCreatePbufferSurface ≠ EGL_SUCCESS then
    earlyExit env (trace4 env env.errCreatePbufferSurface) (stdoutText env)
      "eglCreatePbufferSurface" env.errCreatePbufferSurface
  else if env.errBindAPI ≠ EGL_SUCCESS then
    earlyExit env (trace5 env env.errBindAPI) (stdoutText env) "eglBindAPI" env.errBindAPI
  else if env.errMakeCurrent ≠ EGL_SUCCESS then
    earlyExit env (trace6 env env.errMakeCurrent) (stdoutText env) "eglMakeCurrent"
      env.errMakeCurrent
  else if env.errWaitGL ≠ EGL_SUCCESS then lateExit env
  else successRun env

/-- The seven EGL calls whose code a check of `main` observes all record
`EGL_SUCCESS`. -/
def Env.AllSuccess (env : Env) : Prop :=
  env.errGetDisplay = EGL_SUCCESS ∧ env.errInitialize = EGL_SUCCESS ∧
  env.errChooseConfig = EGL_SUCCESS ∧ env.errCreatePbufferSurface = EGL_SUCCESS ∧
  env.errBindAPI = EGL_SUCCESS ∧ env.errMakeCurrent = EGL_SUCCESS ∧
  env.errWaitGL = EGL_SUCCESS

/-- The lifecycle steps of a successful run up to the end of the file write. -/
def stepsThroughWrite (env : Env) : List Event :=
  [Event.eglGetDisplay EGL_DEFAULT_DISPLAY,
   Event.eglInitialize env.display,
   Event.eglChooseConfig env.display configAttribs 1,
   Event.eglCreatePbufferSurface env.display (cfgOf env) pbufferAttribs,
   Event.eglBindAPI EGL_OPENGL_API,
   Event.eglCreateContext env.display (cfgOf env) EGL_NO_CONTEXT none,
   Event.eglMakeCurrent env.display env.surface env.surface env.context] ++
  List.replicate 10 Event.render ++
  [Event.eglWaitGL,
   Event.glReadPixels 0 0 pbufferWidth pbufferHeight GL_RGB GL_UNSIGNED_BYTE,
   Event.ofs_open "egl.pnm", Event.ofs_insert "P6\n", Event.ofs_insert (toString pbufferWidth),
   Event.ofs_insert " ", Event.ofs_insert (toString pbufferHeight), Event.ofs_insert "\n255\n",
   Event.ofs_write (pbufferWidth * pbufferHeight * 3), Event.ofs_close]

/-- The sequence of lifecycle steps as C9 states it: the display is
terminated right after the file is written. -/
def statedSteps (env : Env) : List Event :=
  stepsThroughWrite env ++ [Event.eglTerminate env.display]

/-- The sequence of lifecycle steps of a successful run. -/
def actualSteps (env : Env) : List Event :=
  stepsThroughWrite env ++ [Event.eglWaitGL, Event.eglTerminate env.display]

/-! ## Drivers used as concrete inputs -/

/-- A driver on which every call succeeds. It paints a square where the
triangle would be and reads each colour channel back as `floor (255 c)`. -/
def envOk : Env :=
  { display := 1, errGetDisplay := EGL_SUCCESS, initialized := true, major := 1, minor := 5,
    errInitialize := EGL_SUCCESS,
    queryString := fun name => (if name = EGL_VENDOR then "vendor" else "1.5", EGL_SUCCESS),
    config := 2, numConfigs := 1, errChooseConfig := EGL_SUCCESS, stackConfig := 0,
    surface := 3, errCreatePbufferSurface := EGL_SUCCESS, errBindAPI := EGL_SUCCESS,
    context := 4, errCreateContext := EGL_SUCCESS, errMakeCurrent := EGL_SUCCESS,
    errWaitGL := EGL_SUCCESS, errWaitGLFinal := EGL_SUCCESS, errTerminate := EGL_SUCCESS,
    surfaceContents := { color := fun _ _ => (0, 0, 0, 0), depth := fun _ _ => 1 },
    draw := fun _ t =>
      { t with
        color := fun x y =>
          if 128 ≤ x ∧ x < 384 ∧ 128 ≤ y ∧ y < 384 then (0, 7/10, 4/5, 1) else t.color x y },
    glReadPixelsError := GL_NO_ERROR,
    readPixels := fun t i =>
      let c := t.color (i / 3 % 512) (i / 3 / 512)
      (Rat.floor ((if i % 3 = 0 then c.1 else if i % 3 = 1 then c.2.1 else c.2.2.1) * 255)).toNat,
    heap := fun _ => 0,
    openOk := true,
    accepts := fun _ k => k }

/-- The driver of `envOk` with a file system that refuses to open `egl.pnm`
for writing. -/
def envNoFile : Env :=
  { envOk with openOk := false }

/-- A driver without a usable display: `eglInitialize` records
`EGL_NOT_INITIALIZED`. -/
def envNoDevice : Env :=
  { envOk with initialized := false, errInitialize := EGL_NOT_INITIALIZED }

/-- A driver on which no configuration matches: `eglChooseConfig` succeeds
with `numConfigs = 0` and leaves `eglCfg` unwritten, and
`eglCreatePbufferSurface` rejects the value it is then given. -/
def envNoConfig : Env :=
  { envOk with numConfigs := 0, stackConfig := 0, errCreatePbufferSurface := EGL_BAD_CONFIG }

/-- A driver that rejects the attribute list of `eglChooseConfig`. -/
def envBadAttribute : Env :=
  { envOk with numConfigs := 0, errChooseConfig := EGL_BAD_ATTRIBUTE }

/-- A driver that cannot allocate the context: `eglCreateContext` returns
`EGL_NO_CONTEXT` and records `EGL_BAD_ALLOC`; `eglMakeCurrent`, given surfaces
with no context, records `EGL_BAD_MATCH`. -/
def envNoContext : Env :=
  { envOk with context := EGL_NO_CONTEXT, errCreateContext := EGL_BAD_ALLOC,
               errMakeCurrent := EGL_BAD_MATCH }

/-- A driver on which the copy of `glReadPixels` fails with
`GL_OUT_OF_MEMORY` while every EGL call succeeds. -/
def envReadError : Env :=
  { envOk with glReadPixelsError := GL_OUT_OF_MEMORY, heap := fun _ => 170 }

/-- A driver on which only the `eglWaitGL` after the render loop records an
error. -/
def envWaitError : Env :=
  { envOk with errWaitGL := EGL_BAD_CURRENT_SURFACE }

/-! ## Lemmas -/

theorem render_eq (env : Env) (w : World) :
    render env w = { w with trace := w.trace ++ renderEvents w.gl, gl := renderGL env w.gl } := by
  simp [renderGL, render, renderEvents, World.log, World.glCall, glGenBuffers, glBindBuffer,
    glBufferData, glGenVertexArrays, glBindVertexArray, glEnableVertexAttribArray,
    glVertexAttribPointer, glCreateShader, glShaderSource, glCompileShader, glCreateProgram,
    glAttachShader, glLinkProgram, glClearColor, glClear, glUseProgram, glDrawArrays, glFlush]

theorem renderLoop_eq (env : Env) (n : Nat) (w : World) :
    renderLoop env n w =
      { w with trace := w.trace ++ loopEvents env n w.gl, gl := loopGL env n w.gl } := by
  induction n generalizing w with
  | zero => simp [renderLoop, loopEvents, loopGL]
  | succ n ih => simp [renderLoop, loopEvents, loopGL, ih, render_eq]

theorem main_eq (env : Env) : main env = mainResult env := by
  unfold mainResult
  split_ifs with h1 h2 h3 h4 h5 h6 h7 <;> simp only [ne_eq, not_not] at * <;>
  simp [main, Run.bind, egl_check_error, eglGetDisplay, eglInitialize, eglQueryString,
    eglChooseConfig, eglCreatePbufferSurface, eglBindAPI, eglCreateContext, eglMakeCurrent,
    eglWaitGL, eglTerminate, World.egl, World.log, World.initial, printf, malloc, glReadPixels,
    ofs_open, ofs_insert, ofs_write, ofs_close, renderLoop_eq, earlyExit, lateExit, successRun, trace1, trace2,
    trace3, trace4, trace5, trace6, trace7, trace8, stdoutText, diagnostic, cfgOf, glAfterRead,
    glAtRead, bufferAfterRead, streamAfter, *]

/-- The eight ways a run of `main` ends. -/
theorem main_cases (env : Env) :
    (env.errGetDisplay ≠ EGL_SUCCESS ∧
      main env = earlyExit env (trace1 env.errGetDisplay) "" "eglGetDisplay" env.errGetDisplay) ∨
    (env.errInitialize ≠ EGL_SUCCESS ∧
      main env = earlyExit env (trace2 env env.errInitialize) "" "eglInitialize"
        env.errInitialize) ∨
    (env.errChooseConfig ≠ EGL_SUCCESS ∧
      main env = earlyExit env (trace3 env env.errChooseConfig) (stdoutText env)
        "eglChooseConfig" env.errChooseConfig) ∨
    (env.errCreatePbufferSurface ≠ EGL_SUCCESS ∧
      main env = earlyExit env (trace4 env env.errCreatePbufferSurface) (stdoutText env)
        "eglCreatePbufferSurface" env.errCreatePbufferSurface) ∨
    (env.errBindAPI ≠ EGL_SUCCESS ∧
      main env = earlyExit env (trace5 env env.errBindAPI) (stdoutText env) "eglBindAPI"
        env.errBindAPI) ∨
    (env.errMakeCurrent ≠ EGL_SUCCESS ∧
      main env = earlyExit env (trace6 env env.errMakeCurrent) (stdoutText env)
        "eglMakeCurrent" env.errMakeCurrent) ∨
    (env.errWaitGL ≠ EGL_SUCCESS ∧ main env = lateExit env) ∨
    (env.AllSuccess ∧ main env = successRun env) := by
  rw [main_eq, mainResult]
  split_ifs with h1 h2 h3 h4 h5 h6 h7
  · exact Or.inl ⟨h1, rfl⟩
  · exact Or.inr (Or.inl ⟨h2, rfl⟩)
  · exact Or.inr (Or.inr (Or.inl ⟨h3, rfl⟩))
  · exact Or.inr (Or.inr (Or.inr (Or.inl ⟨h4, rfl⟩)))
  · exact Or.inr (Or.inr (Or.inr (Or.inr (Or.inl ⟨h5, rfl⟩))))
  · exact Or.inr (Or.inr (Or.inr (Or.inr (Or.inr (Or.inl ⟨h6, rfl⟩)))))
  · exact Or.inr (Or.inr (Or.inr (Or.inr (Or.inr (Or.inr (Or.inl ⟨h7, rfl⟩))))))
  · simp only [ne_eq, not_not] at h1 h2 h3 h4 h5 h6 h7
    exact Or.inr (Or.inr (Or.inr (Or.inr (Or.inr (Or.inr (Or.inr
      ⟨⟨h1, h2, h3, h4, h5, h6, h7⟩, rfl⟩))))))

theorem main_of_allSuccess (env : Env) (h : env.AllSuccess) : main env = successRun env := by
  obtain ⟨h1, h2, h3, h4, h5, h6, h7⟩ := h
  rw [main_eq, mainResult]
  simp [h1, h2, h3, h4, h5, h6, h7]

theorem inOrder_of_scan (ps : List (Event → Bool)) (l : List Event)
    (h : inOrderScan ps l = true) : InOrder ps l := by
  induction l generalizing ps with
  | nil =>
    cases ps with
    | nil => exact ⟨[], List.Sublist.slnil, List.Forall₂.nil⟩
    | cons p ps => simp [inOrderScan] at h
  | cons x xs ih =>
    cases ps with
    | nil => exact ⟨[], List.nil_sublist _, List.Forall₂.nil⟩
    | cons p ps =>
      simp only [inOrderScan] at h
      by_cases hp : p x = true
      · rw [if_pos hp] at h
        obtain ⟨ys, hs, hf⟩ := ih ps h
        exact ⟨x :: ys, hs.cons₂ x, List.Forall₂.cons hp hf⟩
      · rw [if_neg hp] at h
        obtain ⟨ys, hs, hf⟩ := ih (p :: ps) h
        exact ⟨ys, hs.cons x, hf⟩

theorem flushNext_sound (l : List Event) (h : flushNext l = true) :
    ∃ c d, l = c ++ Event.glFlush :: d ∧ ∀ y ∈ c, y ≠ Event.render := by
  induction l with
  | nil => simp [flushNext] at h
  | cons x xs ih =>
    simp only [flushNext] at h
    by_cases hf : x.isFlush = true
    · refine ⟨[], xs, ?_, by simp⟩
      cases x <;> simp_all [Event.isFlush]
    · rw [if_neg hf] at h
      by_cases hr : x.isRender = true
      · rw [if_pos hr] at h; exact absurd h (by simp)
      · rw [if_neg hr] at h
        obtain ⟨c, d, rfl, hc⟩ := ih h
        refine ⟨x :: c, d, rfl, ?_⟩
        intro y hy
        rcases List.mem_cons.1 hy with rfl | hy
        · intro hyr; rw [hyr] at hr; exact hr rfl
        · exact hc y hy

theorem renderFlushed_of_scan (l : List Event) (h : flushedScan l = true) : RenderFlushed l := by
  induction l with
  | nil => intro a b hh; simp at hh
  | cons x xs ih =>
    intro a b hh
    simp only [flushedScan, Bool.and_eq_true, Bool.or_eq_true, Bool.not_eq_true'] at h
    cases a with
    | nil =>
      simp only [List.nil_append, List.cons.injEq] at hh
      obtain ⟨rfl, rfl⟩ := hh
      rcases h.1 with h1 | h1
      · simp [Event.isRender] at h1
      · exact flushNext_sound _ h1
    | cons p ps =>
      simp only [List.cons_append, List.cons.injEq] at hh
      obtain ⟨rfl, rfl⟩ := hh
      exact ih h.2 ps b rfl

theorem clear_mask_color : (GL_COLOR_BUFFER_BIT ||| GL_DEPTH_BUFFER_BIT) &&& GL_COLOR_BUFFER_BIT ≠ 0 := by
  decide

theorem clear_mask_depth : (GL_COLOR_BUFFER_BIT ||| GL_DEPTH_BUFFER_BIT) &&& GL_DEPTH_BUFFER_BIT ≠ 0 := by
  decide

theorem renderGL_target (env : Env) (g : GLState) (hg : g.Fresh) :
    (renderGL env g).target = env.draw triangleDraw (clearedTarget g.clearDepth) := by
  have hv : g.vertexArrays g.nextVertexArray = none := hg _ (le_refl _)
  simp [renderGL, render, World.log, World.glCall, glGenBuffers, glBindBuffer,
    glBufferData, glGenVertexArrays, glBindVertexArray, glEnableVertexAttribArray,
    glVertexAttribPointer, glCreateShader, glShaderSource, glCompileShader, glCreateProgram,
    glAttachShader, glLinkProgram, glClearColor, glClear, glUseProgram, glDrawArrays, glFlush,
    clear_mask_color, clear_mask_depth, GLState.drawCall, GLState.attrib, setAt, hv,
    clearedTarget, triangleDraw]
  congr 1
  congr 1
  funext i
  by_cases hi : i = 0 <;> simp [hi, VertexAttrib.initial, points]

theorem renderGL_clearDepth (env : Env) (g : GLState) :
    (renderGL env g).clearDepth = g.clearDepth := by
  simp [renderGL, render, World.log, World.glCall, glGenBuffers, glBindBuffer,
    glBufferData, glGenVertexArrays, glBindVertexArray, glEnableVertexAttribArray,
    glVertexAttribPointer, glCreateShader, glShaderSource, glCompileShader, glCreateProgram,
    glAttachShader, glLinkProgram, glClearColor, glClear, glUseProgram, glDrawArrays, glFlush]

theorem renderGL_error (env : Env) (g : GLState) : (renderGL env g).error = g.error := by
  simp [renderGL, render, World.log, World.glCall, glGenBuffers, glBindBuffer,
    glBufferData, glGenVertexArrays, glBindVertexArray, glEnableVertexAttribArray,
    glVertexAttribPointer, glCreateShader, glShaderSource, glCompileShader, glCreateProgram,
    glAttachShader, glLinkProgram, glClearColor, glClear, glUseProgram, glDrawArrays, glFlush]

theorem renderGL_fresh (env : Env) (g : GLState) (hg : g.Fresh) : (renderGL env g).Fresh := by
  have hv : g.vertexArrays g.nextVertexArray = none := hg _ (le_refl _)
  intro n hn
  have hn1 : g.nextVertexArray + 1 ≤ n := by
    simpa [renderGL, render, World.log, World.glCall, glGenBuffers, glBindBuffer,
      glBufferData, glGenVertexArrays, glBindVertexArray, glEnableVertexAttribArray,
      glVertexAttribPointer, glCreateShader, glShaderSource, glCompileShader, glCreateProgram,
      glAttachShader, glLinkProgram, glClearColor, glClear, glUseProgram, glDrawArrays, glFlush]
      using hn
  have hne : n ≠ g.nextVertexArray := by omega
  have hgn : g.vertexArrays n = none := hg n (by omega)
  simp [renderGL, render, World.log, World.glCall, glGenBuffers, glBindBuffer,
    glBufferData, glGenVertexArrays, glBindVertexArray, glEnableVertexAttribArray,
    glVertexAttribPointer, glCreateShader, glShaderSource, glCompileShader, glCreateProgram,
    glAttachShader, glLinkProgram, glClearColor, glClear, glUseProgram, glDrawArrays, glFlush,
    setAt, hv, hne, hgn]

theorem loopGL_target (env : Env) (n : Nat) (g : GLState) (hg : g.Fresh) :
    (loopGL env (n + 1) g).target = env.draw triangleDraw (clearedTarget g.clearDepth) := by
  induction n generalizing g with
  | zero => simpa [loopGL] using renderGL_target env g hg
  | succ n ih =>
    have h := ih (renderGL env g) (renderGL_fresh env g hg)
    rw [renderGL_clearDepth] at h
    simpa [loopGL] using h

theorem loopGL_error (env : Env) (n : Nat) (g : GLState) : (loopGL env n g).error = g.error := by
  induction n generalizing g with
  | zero => rfl
  | succ n ih => simp [loopGL, ih, renderGL_error]

theorem initial_fresh (contents : Target) : (GLState.initial contents).Fresh :=
  fun _ _ => rfl

theorem renderEvents_inRender (g : GLState) : (renderEvents g).all Event.inRender = true := rfl

theorem loopEvents_inRender (env : Env) (n : Nat) (g : GLState) :
    ∀ x ∈ loopEvents env n g, x.inRender = true := by
  induction n generalizing g with
  | zero => intro x hx; simp [loopEvents] at hx
  | succ n ih =>
    intro x hx
    simp only [loopEvents, List.mem_append] at hx
    rcases hx with hx | hx
    · exact List.all_eq_true.1 (renderEvents_inRender g) x hx
    · exact ih _ x hx

theorem loopEvents_countP_render (env : Env) (n : Nat) (g : GLState) :
    (loopEvents env n g).countP Event.isRender = n := by
  induction n generalizing g with
  | zero => rfl
  | succ n ih =>
    have h1 : (renderEvents g).countP Event.isRender = 1 := rfl
    simp only [loopEvents, List.countP_append, ih, h1]; omega

theorem loopEvents_countP_flush (env : Env) (n : Nat) (g : GLState) :
    (loopEvents env n g).countP Event.isFlush = n := by
  induction n generalizing g with
  | zero => rfl
  | succ n ih =>
    have h1 : (renderEvents g).countP Event.isFlush = 1 := rfl
    simp only [loopEvents, List.countP_append, ih, h1]; omega

theorem flushedScan_renderEvents (g : GLState) (rest : List Event) :
    flushedScan (renderEvents g ++ rest) = flushedScan rest := by
  simp [renderEvents, flushedScan, flushNext, Event.isRender, Event.isFlush]

theorem flushedScan_loopEvents (env : Env) (n : Nat) (g : GLState) (rest : List Event) :
    flushedScan (loopEvents env n g ++ rest) = flushedScan rest := by
  induction n generalizing g with
  | zero => rfl
  | succ n ih => simp only [loopEvents, List.append_assoc, flushedScan_renderEvents, ih]

theorem filter_isStep_loopEvents (env : Env) (n : Nat) (g : GLState) :
    (loopEvents env n g).filter Event.isStep = List.replicate n Event.render := by
  induction n generalizing g with
  | zero => rfl
  | succ n ih =>
    have h1 : (renderEvents g).filter Event.isStep = [Event.render] := rfl
    simp only [loopEvents, List.filter_append, ih, h1, List.replicate_succ, List.singleton_append]

theorem check_not_mem_loopEvents (env : Env) (n : Nat) (g : GLState) (msg : String) (e : Int) :
    Event.egl_check_error msg e ∉ loopEvents env n g := by
  intro h
  have := loopEvents_inRender env n g _ h
  simp [Event.inRender] at this

theorem checksPass_trace8 (env : Env) : ChecksPass (trace8 env) := by
  intro msg e h
  have hl := check_not_mem_loopEvents env 10 (GLState.initial env.surfaceContents) msg e
  simp [trace8, trace7, trace6, trace5, trace4, trace3, trace2, trace1, hl] at h
  rcases h with h | h | h | h | h | h | h <;> exact h.2

theorem status_zero_iff (env : Env) : (main env).status = some 0 ↔ env.AllSuccess := by
  constructor
  · intro h
    rcases main_cases env with ⟨_, hm⟩ | ⟨_, hm⟩ | ⟨_, hm⟩ | ⟨_, hm⟩ | ⟨_, hm⟩ | ⟨_, hm⟩ |
      ⟨_, hm⟩ | ⟨hs, _⟩
    all_goals first
      | exact hs
      | (rw [hm] at h; simp [earlyExit, lateExit, Run.status] at h)
  · intro h
    rw [main_of_allSuccess env h]; rfl

theorem checksPass_iff (env : Env) : ChecksPass (main env).world.trace ↔ env.AllSuccess := by
  constructor
  · intro h
    rcases main_cases env with ⟨hk, hm⟩ | ⟨hk, hm⟩ | ⟨hk, hm⟩ | ⟨hk, hm⟩ | ⟨hk, hm⟩ |
      ⟨hk, hm⟩ | ⟨hk, hm⟩ | ⟨hs, _⟩
    · exact absurd (h "eglGetDisplay" _ (by rw [hm]; simp [earlyExit, Run.world, trace1])) hk
    · exact absurd (h "eglInitialize" _ (by rw [hm]; simp [earlyExit, Run.world, trace2])) hk
    · exact absurd (h "eglChooseConfig" _ (by rw [hm]; simp [earlyExit, Run.world, trace3])) hk
    · exact absurd (h "eglCreatePbufferSurface" _
        (by rw [hm]; simp [earlyExit, Run.world, trace4])) hk
    · exact absurd (h "eglBindAPI" _ (by rw [hm]; simp [earlyExit, Run.world, trace5])) hk
    · exact absurd (h "eglMakeCurrent" _ (by rw [hm]; simp [earlyExit, Run.world, trace6])) hk
    · exact absurd (h "glReadPixels" _ (by rw [hm]; simp [lateExit, Run.world, trace7])) hk
    · exact hs
  · intro h
    rw [main_of_allSuccess env h]
    exact checksPass_trace8 env

theorem envOk_allSuccess : envOk.AllSuccess := ⟨rfl, rfl, rfl, rfl, rfl, rfl, rfl⟩

theorem countP_eq_zero_of_inRender (p : Event → Bool) (hp : ∀ x, x.inRender = true → p x = false)
    (env : Env) (n : Nat) (g : GLState) : (loopEvents env n g).countP p = 0 := by
  rw [List.countP_eq_zero]
  intro x hx
  simp [hp x (loopEvents_inRender env n g x hx)]

theorem inRender_not_readPixels (x : Event) (h : x.inRender = true) : x.isReadPixels = false := by
  cases x <;> simp_all [Event.inRender, Event.isReadPixels]

theorem inRender_not_stream (x : Event) (h : x.inRender = true) : x.isStream = false := by
  cases x <;> simp_all [Event.inRender, Event.isStream]

theorem streamPut_good (env : Env) (hacc : ∀ n k, env.accepts n k = k) (old bytes : List Nat) :
    streamPut env bytes (some old, false) = (some (old ++ bytes), false) := by
  simp [streamPut, hacc]

theorem streamAfter_noOpen (env : Env) (h : env.openOk = false) :
    streamAfter env = (none, true) := by
  simp [streamAfter, streamPut, h]

theorem header_bytes : textBytes "P6\n" ++ textBytes (toString pbufferWidth) ++ textBytes " " ++
    textBytes (toString pbufferHeight) ++ textBytes "\n255\n" = textBytes "P6\n512 512\n255\n" := by
  decide

theorem streamAfter_good (env : Env) (hopen : env.openOk = true)
    (hacc : ∀ n k, env.accepts n k = k) :
    streamAfter env = (some (textBytes "P6\n512 512\n255\n" ++
      (List.range (512 * 512 * 3)).map (bufferAfterRead env)), false) := by
  unfold streamAfter
  rw [hopen]
  simp only [if_true, Bool.not_true, streamPut_good env hacc, List.nil_append, header_bytes]
  rfl

theorem main_envNoDevice : (main envNoDevice).status = some 1 := by
  rcases main_cases envNoDevice with ⟨hk, hm⟩ | ⟨_, hm⟩ | ⟨hk, hm⟩ | ⟨hk, hm⟩ | ⟨hk, hm⟩ |
    ⟨hk, hm⟩ | ⟨hk, hm⟩ | ⟨hs, _⟩
  · exact absurd rfl hk
  · rw [hm]; rfl
  · exact absurd rfl hk
  · exact absurd rfl hk
  · exact absurd rfl hk
  · exact absurd rfl hk
  · exact absurd rfl hk
  · exact absurd hs.2.1 (by decide)

theorem no_stream_trace6 (env : Env) (e : Int) : ∀ x ∈ trace6 env e, x.isStream = false := by
  simp [trace6, trace5, trace4, trace3, trace2, trace1, Event.isStream]

theorem everyPrefix_of_none {q : Event → Bool} {P : List Event → Prop} {tr : List Event}
    (h : ∀ x ∈ tr, q x = false) : EveryPrefix q P tr := by
  intro pre x post hh hq
  have hx : x ∈ tr := by rw [hh]; simp
  rw [h x hx] at hq
  exact absurd hq (by simp)

theorem everyPrefix_append {q : Event → Bool} {P : List Event → Prop} (A B : List Event)
    (hA : ∀ x ∈ A, q x = false) (hP : ∀ l, P (A ++ l)) : EveryPrefix q P (A ++ B) := by
  intro pre x post hh hq
  rcases List.append_eq_append_iff.1 hh with ⟨a, rfl, _⟩ | ⟨c, rfl, hc⟩
  · exact hP a
  · cases c with
    | nil => simpa using hP []
    | cons y ys =>
      simp only [List.cons_append, List.cons.injEq] at hc
      have hx : x ∈ pre ++ y :: ys := by rw [hc.1]; simp
      rw [hA x hx] at hq
      exact absurd hq (by simp)

theorem everyPrefix_single {q : Event → Bool} {P : List Event → Prop} (A : List Event)
    (x0 : Event) (B : List Event) (hA : ∀ x ∈ A, q x = false) (hB : ∀ x ∈ B, q x = false)
    (hP : P A) : EveryPrefix q P (A ++ x0 :: B) := by
  intro pre x post hh hq
  rcases List.append_eq_append_iff.1 hh with ⟨a, rfl, ha⟩ | ⟨c, rfl, hc⟩
  · cases a with
    | nil => simpa using hP
    | cons y ys =>
      simp only [List.cons_append, List.cons.injEq] at ha
      have hx : x ∈ B := by rw [ha.2]; simp
      rw [hB x hx] at hq
      exact absurd hq (by simp)
  · cases c with
    | nil => simpa using hP
    | cons y ys =>
      simp only [List.cons_append, List.cons.injEq] at hc
      have hx : x ∈ pre ++ y :: ys := by rw [hc.1]; simp
      rw [hA x hx] at hq
      exact absurd hq (by simp)

theorem InOrder.append_right {ps : List (Event → Bool)} {l : List Event} (h : InOrder ps l)
    (m : List Event) : InOrder ps (l ++ m) := by
  obtain ⟨ys, hs, hf⟩ := h
  exact ⟨ys, hs.trans (List.sublist_append_left l m), hf⟩

theorem InOrder.append_left {ps : List (Event → Bool)} {m : List Event} (h : InOrder ps m)
    (l : List Event) : InOrder ps (l ++ m) := by
  obtain ⟨ys, hs, hf⟩ := h
  exact ⟨ys, hs.trans (List.sublist_append_right l m), hf⟩

theorem inOrder_trace6 (env : Env) :
    InOrder [Event.isMakeCurrent, Event.isPassed "eglMakeCurrent"] (trace6 env EGL_SUCCESS) := by
  apply inOrder_of_scan
  simp [trace6, trace5, trace4, trace3, trace2, trace1, inOrderScan, Event.isMakeCurrent,
    Event.isPassed]

theorem quiet_trace6 (env : Env) (e : Int) : ∀ x ∈ trace6 env e,
    x.isDraw = false ∧ x.isReadPixels = false ∧ x.isOpen = false ∧ x.isRender = false ∧
      x.isFlush = false := by
  simp [trace6, trace5, trace4, trace3, trace2, trace1, Event.isDraw, Event.isReadPixels,
    Event.isOpen, Event.isRender, Event.isFlush]

theorem inRender_not_open (x : Event) (h : x.inRender = true) : x.isOpen = false := by
  cases x <;> simp_all [Event.inRender, Event.isOpen]

theorem beforeRead_quiet (env : Env) : ∀ x ∈ beforeRead env, x.isReadPixels = false := by
  intro x hx
  simp only [beforeRead, List.mem_append] at hx
  rcases hx with (hx | hx) | hx
  · exact (quiet_trace6 env _ x hx).2.1
  · exact inRender_not_readPixels x (loopEvents_inRender _ _ _ x hx)
  · revert x; simp [Event.isReadPixels]

theorem beforeRead_flushed (env : Env) : FlushedAndWaited (beforeRead env) := by
  refine ⟨trace6 env EGL_SUCCESS ++ loopEvents env 10 (GLState.initial env.surfaceContents),
    [Event.malloc (pbufferWidth * pbufferHeight * 3)], by simp [beforeRead], ?_, ?_, ?_⟩
  · rw [List.countP_append, loopEvents_countP_render, List.countP_eq_zero.2]
    intro x hx; simp [(quiet_trace6 env _ x hx).2.2.2.1]
  · rw [List.countP_append, loopEvents_countP_flush, List.countP_eq_zero.2]
    intro x hx; simp [(quiet_trace6 env _ x hx).2.2.2.2]
  · apply renderFlushed_of_scan
    have h6 : ∀ rest, flushedScan (trace6 env EGL_SUCCESS ++ rest) = flushedScan rest := by
      intro rest
      simp [trace6, trace5, trace4, trace3, trace2, trace1, flushedScan, Event.isRender]
    rw [h6]
    have h := flushedScan_loopEvents env 10 (GLState.initial env.surfaceContents) []
    rw [List.append_nil] at h
    rw [h]
    rfl

theorem trace7_split (env : Env) (e : Int) :
    trace7 env e = beforeRead env ++
      Event.glReadPixels 0 0 pbufferWidth pbufferHeight GL_RGB GL_UNSIGNED_BYTE ::
        [Event.egl_check_error "glReadPixels" e] := by
  simp [trace7, beforeRead]

theorem trace7_draw (env : Env) (e : Int) (rest : List Event) :
    EveryPrefix Event.isDraw (InOrder [Event.isMakeCurrent, Event.isPassed "eglMakeCurrent"])
      (trace7 env e ++ rest) := by
  have h : trace7 env e ++ rest = trace6 env EGL_SUCCESS ++
      (loopEvents env 10 (GLState.initial env.surfaceContents) ++
        [Event.eglWaitGL, Event.malloc (pbufferWidth * pbufferHeight * 3),
         Event.glReadPixels 0 0 pbufferWidth pbufferHeight GL_RGB GL_UNSIGNED_BYTE,
         Event.egl_check_error "glReadPixels" e] ++ rest) := by
    simp [trace7]
  rw [h]
  exact everyPrefix_append _ _ (fun x hx => (quiet_trace6 env _ x hx).1)
    (fun l => (inOrder_trace6 env).append_right l)

theorem trace7_quiet (env : Env) (e : Int) : ∀ x ∈ trace7 env e, x.isOpen = false := by
  intro x hx
  simp only [trace7, List.mem_append] at hx
  rcases hx with (hx | hx) | hx
  · exact (quiet_trace6 env _ x hx).2.2.1
  · exact inRender_not_open x (loopEvents_inRender _ _ _ x hx)
  · revert x; simp [Event.isOpen]

theorem fresh_setTarget (g : GLState) (t : Target) (hg : g.Fresh) :
    GLState.Fresh { g with target := t } := hg

theorem status_one_iff (env : Env) : (main env).status = some 1 ↔ ¬ env.AllSuccess := by
  constructor
  · intro h hs
    rw [(status_zero_iff env).2 hs] at h
    exact absurd h (by decide)
  · intro hn
    rcases main_cases env with ⟨_, hm⟩ | ⟨_, hm⟩ | ⟨_, hm⟩ | ⟨_, hm⟩ | ⟨_, hm⟩ | ⟨_, hm⟩ |
      ⟨_, hm⟩ | ⟨hs, _⟩
    all_goals first
      | exact absurd hs hn
      | (rw [hm]; rfl)

theorem surface_call_mem (env : Env) (h1 : env.errGetDisplay = EGL_SUCCESS)
    (h2 : env.errInitialize = EGL_SUCCESS) (h3 : env.errChooseConfig = EGL_SUCCESS) :
    Event.eglCreatePbufferSurface env.display
      (if 0 < env.numConfigs then env.config else env.stackConfig) pbufferAttribs ∈
        (main env).world.trace := by
  have h4 : Event.eglCreatePbufferSurface env.display
      (if 0 < env.numConfigs then env.config else env.stackConfig) pbufferAttribs ∈
        trace4 env env.errCreatePbufferSurface := by
    simp [trace4, cfgOf]
  have h4s : Event.eglCreatePbufferSurface env.display
      (if 0 < env.numConfigs then env.config else env.stackConfig) pbufferAttribs ∈
        trace4 env EGL_SUCCESS := by
    simp [trace4, cfgOf]
  have h6 : ∀ e, Event.eglCreatePbufferSurface env.display
      (if 0 < env.numConfigs then env.config else env.stackConfig) pbufferAttribs ∈
        trace6 env e := by
    intro e
    simp only [trace6, trace5, List.mem_append]
    exact Or.inl (Or.inl h4s)
  rcases main_cases env with ⟨hk, _⟩ | ⟨hk, _⟩ | ⟨hk, _⟩ | ⟨_, hm⟩ | ⟨_, hm⟩ | ⟨_, hm⟩ |
    ⟨_, hm⟩ | ⟨_, hm⟩
  · exact absurd h1 hk
  · exact absurd h2 hk
  · exact absurd h3 hk
  · rw [hm]; exact h4
  · rw [hm]; simp only [earlyExit, Run.world, trace5, List.mem_append]; exact Or.inl h4s
  · rw [hm]; exact h6 _
  · rw [hm]; simp only [lateExit, Run.world, trace7, List.mem_append]
    exact Or.inl (Or.inl (h6 _))
  · rw [hm]; simp only [successRun, Run.world, trace8, trace7, List.mem_append]
    exact Or.inl (Or.inl (Or.inl (h6 _)))

theorem main_of_fail3 (env : Env) (h1 : env.errGetDisplay = EGL_SUCCESS)
    (h2 : env.errInitialize = EGL_SUCCESS) (h3 : env.errChooseConfig ≠ EGL_SUCCESS) :
    main env = earlyExit env (trace3 env env.errChooseConfig) (stdoutText env)
      "eglChooseConfig" env.errChooseConfig := by
  rw [main_eq, mainResult]; simp [h1, h2, h3]

theorem main_of_fail4 (env : Env) (h1 : env.errGetDisplay = EGL_SUCCESS)
    (h2 : env.errInitialize = EGL_SUCCESS) (h3 : env.errChooseConfig = EGL_SUCCESS)
    (h4 : env.errCreatePbufferSurface ≠ EGL_SUCCESS) :
    main env = earlyExit env (trace4 env env.errCreatePbufferSurface) (stdoutText env)
      "eglCreatePbufferSurface" env.errCreatePbufferSurface := by
  rw [main_eq, mainResult]; simp [h1, h2, h3, h4]

theorem main_of_fail6 (env : Env) (h1 : env.errGetDisplay = EGL_SUCCESS)
    (h2 : env.errInitialize = EGL_SUCCESS) (h3 : env.errChooseConfig = EGL_SUCCESS)
    (h4 : env.errCreatePbufferSurface = EGL_SUCCESS) (h5 : env.errBindAPI = EGL_SUCCESS)
    (h6 : env.errMakeCurrent ≠ EGL_SUCCESS) :
    main env = earlyExit env (trace6 env env.errMakeCurrent) (stdoutText env)
      "eglMakeCurrent" env.errMakeCurrent := by
  rw [main_eq, mainResult]; simp [h1, h2, h3, h4, h5, h6]

theorem main_of_fail7 (env : Env) (h1 : env.errGetDisplay = EGL_SUCCESS)
    (h2 : env.errInitialize = EGL_SUCCESS) (h3 : env.errChooseConfig = EGL_SUCCESS)
    (h4 : env.errCreatePbufferSurface = EGL_SUCCESS) (h5 : env.errBindAPI = EGL_SUCCESS)
    (h6 : env.errMakeCurrent = EGL_SUCCESS) (h7 : env.errWaitGL ≠ EGL_SUCCESS) :
    main env = lateExit env := by
  rw [main_eq, mainResult]; simp [h1, h2, h3, h4, h5, h6, h7]

theorem steps_trace8 (env : Env) : (trace8 env).filter Event.isStep = actualSteps env := by
  simp only [trace8, trace7, List.filter_append, filter_isStep_loopEvents]
  rfl

theorem inRender_not_terminate (x : Event) (h : x.inRender = true) : x.isTerminate = false := by
  cases x <;> simp_all [Event.inRender, Event.isTerminate]

theorem eglErrorString_unknown (e : Int) (h : e ∉ recognisedCodes) :
    eglErrorString e = "Unknown error " := by
  simp only [recognisedCodes, List.mem_cons, List.mem_singleton, not_or, List.mem_nil_iff,
    not_false_eq_true, and_true] at h
  obtain ⟨h0, h1, h2, h3, h4, h5, h6, h7, h8, h9, h10, h11, h12, h13, h14⟩ := h
  unfold eglErrorString
  rw [if_neg h0, if_neg h1, if_neg h2, if_neg h3, if_neg h4, if_neg h5, if_neg h6, if_neg h7,
    if_neg h8, if_neg h9, if_neg h10, if_neg h11, if_neg h12, if_neg h13, if_neg h14]

/-! ## The claims -/

/-- C1, as stated, fails: on a file system that refuses the open every
error check passes and `main` exits with status 0, yet nothing is written to
`egl.pnm`. -/
theorem pnm_output_needs_open :
    ChecksPass (main envNoFile).world.trace ∧ (main envNoFile).status = some 0 ∧
    (main envNoFile).world.file = none ∧
    (main envNoFile).world.file ≠
      some (textBytes "P6\n512 512\n255\n" ++
        (List.range (512 * 512 * 3)).map (main envNoFile).world.buffer) := by
  have hs : envNoFile.AllSuccess := ⟨rfl, rfl, rfl, rfl, rfl, rfl, rfl⟩
  have hfile : (main envNoFile).world.file = none := by
    rw [main_of_allSuccess envNoFile hs]
    simp only [successRun, Run.world, streamAfter_noOpen envNoFile rfl]
  refine ⟨(checksPass_iff envNoFile).2 hs, (status_zero_iff envNoFile).2 hs, hfile, ?_⟩
  rw [hfile]
  exact fun h => Option.noConfusion h

/-- C1, amended. In a run of `main` in which every error check passes, the
file opens and the file system accepts every write, the data written to
`egl.pnm` is the 15-byte header `P6\n512 512\n255\n` followed by the
512*512*3 = 786432 bytes of `buffer` in order, 786447 bytes in all;
`glReadPixels` is called once, and `buffer` holds what that call left there. -/
theorem pnm_output (env : Env) (h : ChecksPass (main env).world.trace)
    (hopen : env.openOk = true) (hacc : ∀ n k, env.accepts n k = k) :
    (main env).world.file =
      some (textBytes "P6\n512 512\n255\n" ++
        (List.range (512 * 512 * 3)).map (main env).world.buffer) ∧
    (textBytes "P6\n512 512\n255\n").length = 15 ∧
    (∀ bytes, (main env).world.file = some bytes → bytes.length = 786447) ∧
    (main env).world.trace.countP Event.isReadPixels = 1 ∧
    (main env).world.buffer =
      (if env.glReadPixelsError = GL_NO_ERROR then
        fun i => if i < 512 * 512 * 3 then env.readPixels (main env).world.gl.target i % 256
          else env.heap i
       else env.heap) := by
  have hs := (checksPass_iff env).1 h
  rw [main_of_allSuccess env hs, successRun]
  have hfile : (streamAfter env).1 = some (textBytes "P6\n512 512\n255\n" ++
      (List.range (512 * 512 * 3)).map (bufferAfterRead env)) := by
    rw [streamAfter_good env hopen hacc]
  refine ⟨?_, by decide, ?_, ?_, ?_⟩
  · simp only [Run.world, hfile]
  · intro bytes hb
    simp only [Run.world, hfile, Option.some.injEq] at hb
    rw [← hb, List.length_append, List.length_map, List.length_range]
    decide
  · have hl := countP_eq_zero_of_inRender Event.isReadPixels inRender_not_readPixels env 10
      (GLState.initial env.surfaceContents)
    simp only [Run.world, trace8, trace7, List.countP_append, hl]
    rfl
  · simp only [Run.world, bufferAfterRead, glAfterRead]
    rfl

/-- The amended C1 on a driver and file system on which every call succeeds. -/
theorem pnm_output_witness :
    ChecksPass (main envOk).world.trace ∧ envOk.openOk = true ∧
    (∀ n k, envOk.accepts n k = k) ∧
    (main envOk).world.file =
      some (textBytes "P6\n512 512\n255\n" ++
        (List.range (512 * 512 * 3)).map (main envOk).world.buffer) :=
  ⟨(checksPass_iff envOk).2 envOk_allSuccess, rfl, fun _ _ => rfl,
   (pnm_output envOk ((checksPass_iff envOk).2 envOk_allSuccess) rfl (fun _ _ => rfl)).1⟩

/-- C2, as stated, fails: with `numConfigs = 0` and `EGL_SUCCESS` from
`eglChooseConfig`, `main` goes on to call `eglCreatePbufferSurface` with the
unwritten `eglCfg`; it exits only at the check after that call. -/
theorem no_config_surface_created :
    envNoConfig.numConfigs = 0 ∧ envNoConfig.errChooseConfig = EGL_SUCCESS ∧
    Event.eglCreatePbufferSurface envNoConfig.display envNoConfig.stackConfig pbufferAttribs ∈
      (main envNoConfig).world.trace ∧
    ¬ ((main envNoConfig).status = some 1 ∧
      ∀ x ∈ (main envNoConfig).world.trace, x.isCreateSurface = false) := by
  have hm := main_of_fail4 envNoConfig rfl rfl rfl (by decide)
  have hmem : Event.eglCreatePbufferSurface envNoConfig.display envNoConfig.stackConfig
      pbufferAttribs ∈ (main envNoConfig).world.trace := by
    rw [hm]
    simp [earlyExit, Run.world, trace4, cfgOf, envNoConfig]
  exact ⟨rfl, rfl, hmem, fun h => by simpa [Event.isCreateSurface] using h.2 _ hmem⟩

/-- C2, amended. When the check after `eglChooseConfig` observes a code
other than `EGL_SUCCESS`, `main` exits with status 1 before
`eglCreatePbufferSurface` is called. The number of matching configurations
is not examined: when `eglChooseConfig` records `EGL_SUCCESS`,
`eglCreatePbufferSurface` is called with the value `eglCfg` then holds, the
configuration returned if one matched and the unwritten variable otherwise,
and `main` exits with status 1 exactly when one of the later checks observes
a code other than `EGL_SUCCESS`, with status 0 when none does. -/
theorem choose_config_policy (env : Env) (h1 : env.errGetDisplay = EGL_SUCCESS)
    (h2 : env.errInitialize = EGL_SUCCESS) :
    (env.errChooseConfig ≠ EGL_SUCCESS →
      (main env).status = some 1 ∧
      (∀ x ∈ (main env).world.trace, x.isCreateSurface = false) ∧
      (main env).world.stderr =
        "EGL Error (eglChooseConfig): " ++ eglErrorString env.errChooseConfig ++ "\n") ∧
    (env.errChooseConfig = EGL_SUCCESS →
      Event.eglCreatePbufferSurface env.display
        (if 0 < env.numConfigs then env.config else env.stackConfig) pbufferAttribs ∈
          (main env).world.trace ∧
      ((main env).status = some 1 ↔
        (env.errCreatePbufferSurface ≠ EGL_SUCCESS ∨ env.errBindAPI ≠ EGL_SUCCESS ∨
          env.errMakeCurrent ≠ EGL_SUCCESS ∨ env.errWaitGL ≠ EGL_SUCCESS)) ∧
      ((main env).status = some 0 ↔
        (env.errCreatePbufferSurface = EGL_SUCCESS ∧ env.errBindAPI = EGL_SUCCESS ∧
          env.errMakeCurrent = EGL_SUCCESS ∧ env.errWaitGL = EGL_SUCCESS))) := by
  constructor
  · intro h3
    rw [main_of_fail3 env h1 h2 h3]
    refine ⟨rfl, ?_, ?_⟩
    · simp [earlyExit, Run.world, trace3, trace2, trace1, Event.isCreateSurface]
    · simp [earlyExit, Run.world, diagnostic]
  · intro h3
    have h0 : (main env).status = some 0 ↔
        (env.errCreatePbufferSurface = EGL_SUCCESS ∧ env.errBindAPI = EGL_SUCCESS ∧
          env.errMakeCurrent = EGL_SUCCESS ∧ env.errWaitGL = EGL_SUCCESS) := by
      rw [status_zero_iff]
      exact ⟨fun h => h.2.2.2, fun h => ⟨h1, h2, h3, h⟩⟩
    refine ⟨surface_call_mem env h1 h2 h3, ?_, h0⟩
    rw [status_one_iff, ← status_zero_iff, h0]
    tauto

/-- The amended C2 on a driver that rejects the attribute list. -/
theorem choose_config_policy_witness :
    envBadAttribute.errGetDisplay = EGL_SUCCESS ∧ envBadAttribute.errInitialize = EGL_SUCCESS ∧
    envBadAttribute.errChooseConfig ≠ EGL_SUCCESS ∧ (main envBadAttribute).status = some 1 ∧
    ∀ x ∈ (main envBadAttribute).world.trace, x.isCreateSurface = false :=
  ⟨rfl, rfl, by decide, ((choose_config_policy envBadAttribute rfl rfl).1 (by decide)).1,
    ((choose_config_policy envBadAttribute rfl rfl).1 (by decide)).2.1⟩

/-- C3, evaluated where context creation fails: `eglMakeCurrent` is called
right after `eglCreateContext`, no check between them; the run exits with
status 1 at the check after `eglMakeCurrent`, with the diagnostic of that
call. -/
theorem create_context_unchecked :
    envNoContext.errCreateContext ≠ EGL_SUCCESS ∧
    (∃ pre post, (main envNoContext).world.trace =
      pre ++ Event.eglCreateContext 1 2 EGL_NO_CONTEXT none ::
        Event.eglMakeCurrent 1 3 3 EGL_NO_CONTEXT :: post) ∧
    (main envNoContext).status = some 1 ∧
    (main envNoContext).world.stderr = "EGL Error (eglMakeCurrent): Inconsistent arguments\n" := by
  have hm := main_of_fail6 envNoContext rfl rfl rfl rfl rfl (by decide)
  refine ⟨by decide, ⟨trace5 envNoContext EGL_SUCCESS,
    [Event.egl_check_error "eglMakeCurrent" EGL_BAD_MATCH], ?_⟩, ?_, ?_⟩
  · rw [hm]; rfl
  · rw [hm]; rfl
  · rw [hm]; decide

/-- C4, evaluated where the copy fails: the error flag of the rendering API
holds `GL_OUT_OF_MEMORY` and `buffer` is the unwritten allocation, yet `main`
exits with status 0 after writing header and buffer to the file. Where the
copy succeeds and `eglWaitGL` had recorded an error, the check named
`glReadPixels` exits with status 1. -/
theorem readback_error_unchecked :
    (main envReadError).world.gl.error = GL_OUT_OF_MEMORY ∧
    (main envReadError).status = some 0 ∧
    (main envReadError).world.buffer = envReadError.heap ∧
    (∃ bytes, (main envReadError).world.file = some bytes ∧ bytes.length = 786447) ∧
    (main envWaitError).world.gl.error = GL_NO_ERROR ∧
    (main envWaitError).status = some 1 ∧
    (main envWaitError).world.stderr =
      "EGL Error (glReadPixels): Current surface is no longer valid\n" := by
  have hm := main_of_allSuccess envReadError ⟨rfl, rfl, rfl, rfl, rfl, rfl, rfl⟩
  have hw := main_of_fail7 envWaitError rfl rfl rfl rfl rfl rfl (by decide)
  have he : ∀ env : Env, (glAtRead env).error = GL_NO_ERROR := fun env => by
    rw [glAtRead, loopGL_error]; rfl
  refine ⟨?_, ?_, ?_, ?_, ?_, ?_, ?_⟩
  · rw [hm]; simp [successRun, Run.world, glAfterRead, he, envReadError]
  · rw [hm]; rfl
  · rw [hm]; simp [successRun, Run.world, bufferAfterRead, envReadError, GL_OUT_OF_MEMORY,
      GL_NO_ERROR]
  · rw [hm]
    refine ⟨_, congrArg Prod.fst (streamAfter_good envReadError rfl (fun _ _ => rfl)), ?_⟩
    simp only [List.length_append, List.length_map, List.length_range]
    decide
  · rw [hw]; simp [lateExit, Run.world, glAfterRead, he, envWaitError, envOk]
  · rw [hw]; rfl
  · rw [hw]; decide

/-- C5. A run of `main` that terminates with exit status 1 never opens the
output file: the stream holds no data and no call on the stream occurs in the
call trace. -/
theorem exit1_file_untouched (env : Env) (h : (main env).status = some 1) :
    (main env).world.file = none ∧ ∀ x ∈ (main env).world.trace, x.isStream = false := by
  rcases main_cases env with ⟨_, hm⟩ | ⟨_, hm⟩ | ⟨_, hm⟩ | ⟨_, hm⟩ | ⟨_, hm⟩ | ⟨_, hm⟩ |
    ⟨_, hm⟩ | ⟨_, hm⟩ <;> rw [hm] at h ⊢
  · simp [earlyExit, Run.world, trace1, Event.isStream]
  · simp [earlyExit, Run.world, trace2, trace1, Event.isStream]
  · simp [earlyExit, Run.world, trace3, trace2, trace1, Event.isStream]
  · simp [earlyExit, Run.world, trace4, trace3, trace2, trace1, Event.isStream]
  · simp [earlyExit, Run.world, trace5, trace4, trace3, trace2, trace1, Event.isStream]
  · exact ⟨rfl, no_stream_trace6 env _⟩
  · refine ⟨rfl, ?_⟩
    intro x hx
    simp only [lateExit, Run.world, trace7, List.mem_append] at hx
    rcases hx with (hx | hx) | hx
    · exact no_stream_trace6 env _ x hx
    · exact inRender_not_stream x (loopEvents_inRender _ _ _ x hx)
    · revert x
      simp [Event.isStream]
  · simp [successRun, Run.status] at h

/-- C5 on a driver without a usable display. -/
theorem exit1_file_untouched_witness :
    (main envNoDevice).status = some 1 ∧ (main envNoDevice).world.file = none :=
  ⟨main_envNoDevice, (exit1_file_untouched envNoDevice main_envNoDevice).1⟩

/-- C6. In every run of `main`, whatever codes the driver records: a draw
call is preceded by the call of `eglMakeCurrent` and, after it, by the
passing check of `eglMakeCurrent`; `glReadPixels` is preceded by ten calls of
`render`, each followed by its `glFlush`, and then by `eglWaitGL`; the output
file is opened only after `glReadPixels` and, after it, the passing check
named `glReadPixels`. -/
theorem call_order (env : Env) :
    EveryPrefix Event.isDraw (InOrder [Event.isMakeCurrent, Event.isPassed "eglMakeCurrent"])
      (main env).world.trace ∧
    EveryPrefix Event.isReadPixels FlushedAndWaited (main env).world.trace ∧
    EveryPrefix Event.isOpen (InOrder [Event.isReadPixels, Event.isPassed "glReadPixels"])
      (main env).world.trace := by
  rcases main_cases env with ⟨_, hm⟩ | ⟨_, hm⟩ | ⟨_, hm⟩ | ⟨_, hm⟩ | ⟨_, hm⟩ | ⟨_, hm⟩ |
    ⟨_, hm⟩ | ⟨_, hm⟩ <;> rw [hm]
  · refine ⟨everyPrefix_of_none ?_, everyPrefix_of_none ?_, everyPrefix_of_none ?_⟩ <;>
      simp [earlyExit, Run.world, trace1, Event.isDraw, Event.isReadPixels, Event.isOpen]
  · refine ⟨everyPrefix_of_none ?_, everyPrefix_of_none ?_, everyPrefix_of_none ?_⟩ <;>
      simp [earlyExit, Run.world, trace2, trace1, Event.isDraw, Event.isReadPixels, Event.isOpen]
  · refine ⟨everyPrefix_of_none ?_, everyPrefix_of_none ?_, everyPrefix_of_none ?_⟩ <;>
      simp [earlyExit, Run.world, trace3, trace2, trace1, Event.isDraw, Event.isReadPixels,
        Event.isOpen]
  · refine ⟨everyPrefix_of_none ?_, everyPrefix_of_none ?_, everyPrefix_of_none ?_⟩ <;>
      simp [earlyExit, Run.world, trace4, trace3, trace2, trace1, Event.isDraw,
        Event.isReadPixels, Event.isOpen]
  · refine ⟨everyPrefix_of_none ?_, everyPrefix_of_none ?_, everyPrefix_of_none ?_⟩ <;>
      simp [earlyExit, Run.world, trace5, trace4, trace3, trace2, trace1, Event.isDraw,
        Event.isReadPixels, Event.isOpen]
  · exact ⟨everyPrefix_of_none fun x hx => (quiet_trace6 env _ x hx).1,
      everyPrefix_of_none fun x hx => (quiet_trace6 env _ x hx).2.1,
      everyPrefix_of_none fun x hx => (quiet_trace6 env _ x hx).2.2.1⟩
  · refine ⟨?_, ?_, everyPrefix_of_none (trace7_quiet env _)⟩
    · simpa [lateExit, Run.world] using trace7_draw env env.errWaitGL []
    · simp only [lateExit, Run.world, trace7_split]
      exact everyPrefix_single _ _ _ (beforeRead_quiet env) (by simp [Event.isReadPixels])
        (beforeRead_flushed env)
  · refine ⟨?_, ?_, ?_⟩
    · simp only [successRun, Run.world, trace8]
      exact trace7_draw env _ _
    · simp only [successRun, Run.world, trace8, trace7_split, List.append_assoc,
        List.cons_append]
      exact everyPrefix_single _ _ _ (beforeRead_quiet env) (by simp [Event.isReadPixels])
        (beforeRead_flushed env)
    · simp only [successRun, Run.world, trace8]
      refine everyPrefix_single _ _ _ (trace7_quiet env _) (by simp [Event.isOpen]) ?_
      rw [trace7_split]
      refine InOrder.append_left ?_ _
      apply inOrder_of_scan
      simp [inOrderScan, Event.isReadPixels, Event.isPassed]

/-- C7. From any context state in which unallocated vertex-array names
denote no object, the image after `N >= 1` consecutive calls of `render`
equals the image after one call, in particular for the 10 calls of `main`;
the image after one call does not depend on the prior contents of the
target: it is the driver's rasterisation of the fixed triangle, with the
fixed program, onto the target cleared to the constant gray and the clear
depth. -/
theorem render_idempotent (env : Env) (w : World) (N : Nat) (hw : w.gl.Fresh) (hN : 1 ≤ N) :
    (renderLoop env N w).gl.target = (render env w).gl.target ∧
    (renderLoop env 10 w).gl.target = (render env w).gl.target ∧
    (∀ t : Target,
      (render env { w with gl := { w.gl with target := t } }).gl.target =
        (render env w).gl.target) ∧
    (render env w).gl.target = env.draw triangleDraw (clearedTarget w.gl.clearDepth) ∧
    ((main env).status = some 0 →
      (main env).world.gl.target = (render env (World.initial env)).gl.target) := by
  have h1 : (render env w).gl.target = env.draw triangleDraw (clearedTarget w.gl.clearDepth) := by
    rw [render_eq]
    exact renderGL_target env w.gl hw
  refine ⟨?_, ?_, ?_, h1, ?_⟩
  · obtain ⟨n, rfl⟩ : ∃ n, N = n + 1 := ⟨N - 1, by omega⟩
    rw [renderLoop_eq, h1]
    exact loopGL_target env n w.gl hw
  · rw [renderLoop_eq, h1]
    exact loopGL_target env 9 w.gl hw
  · intro t
    have h2 := renderGL_target env { w.gl with target := t } (fresh_setTarget w.gl t hw)
    rw [h1, render_eq]
    simpa using h2
  · intro h0
    have hl := loopGL_target env 9 (GLState.initial env.surfaceContents) (initial_fresh _)
    have hr := renderGL_target env (GLState.initial env.surfaceContents) (initial_fresh _)
    rw [main_of_allSuccess env ((status_zero_iff env).1 h0), render_eq]
    simp only [successRun, Run.world, glAfterRead, glAtRead, World.initial]
    rw [hl, hr]

/-- C7 for the ten calls of `main` from the initial context state. -/
theorem render_idempotent_witness :
    (World.initial envOk).gl.Fresh ∧ 1 ≤ 10 ∧
    (renderLoop envOk 10 (World.initial envOk)).gl.target =
      (render envOk (World.initial envOk)).gl.target :=
  ⟨initial_fresh _, by decide,
    (render_idempotent envOk (World.initial envOk) 10 (initial_fresh _) (by decide)).1⟩

/-- C8, evaluated where only the `eglWaitGL` after the render loop records
an error. `egl_check_error` behaves as the claim says, and `main` exits with
status 0 exactly when the seven EGL calls its checks observe all record
`EGL_SUCCESS`, with status 1 otherwise. The diagnostic does not name the
failing step: the copy of `glReadPixels` raised no error, the code was
recorded by `eglWaitGL`, and the line printed names `glReadPixels`. -/
theorem diagnostic_names_glReadPixels :
    (∀ msg w, w.eglError ≠ EGL_SUCCESS →
      ∃ w2, egl_check_error msg w = Run.exit 1 w2 ∧
        w2.stderr = w.stderr ++ ("EGL Error (" ++ msg ++ "): " ++ eglErrorString w.eglError ++ "\n") ∧
        w2.stdout = w.stdout ∧ w2.file = w.file) ∧
    (∀ msg w, w.eglError = EGL_SUCCESS →
      ∃ w2, egl_check_error msg w = Run.cont w2 ∧ w2.stderr = w.stderr ∧
        w2.stdout = w.stdout ∧ w2.file = w.file) ∧
    (∀ env : Env, (main env).status = some 0 ↔ env.AllSuccess) ∧
    (∀ env : Env, (main env).status = some 1 ↔ ¬ env.AllSuccess) ∧
    envWaitError.errWaitGL = EGL_BAD_CURRENT_SURFACE ∧
    envWaitError.glReadPixelsError = GL_NO_ERROR ∧
    (main envWaitError).world.gl.error = GL_NO_ERROR ∧
    (∃ pre, (main envWaitError).world.trace =
      pre ++ [Event.eglWaitGL, Event.malloc (512 * 512 * 3),
        Event.glReadPixels 0 0 512 512 GL_RGB GL_UNSIGNED_BYTE,
        Event.egl_check_error "glReadPixels" EGL_BAD_CURRENT_SURFACE]) ∧
    (main envWaitError).status = some 1 ∧
    (main envWaitError).world.stderr =
      "EGL Error (glReadPixels): Current surface is no longer valid\n" := by
  have hw := main_of_fail7 envWaitError rfl rfl rfl rfl rfl rfl (by decide)
  have he : ∀ env : Env, (glAtRead env).error = GL_NO_ERROR := fun env => by
    rw [glAtRead, loopGL_error]; rfl
  refine ⟨?_, ?_, status_zero_iff, status_one_iff, rfl, rfl, ?_, ?_, ?_, ?_⟩
  · intro msg w hw
    refine ⟨{ w with
      eglError := EGL_SUCCESS
      trace := w.trace ++ [Event.egl_check_error msg w.eglError]
      stderr := w.stderr ++ ("EGL Error (" ++ msg ++ "): " ++ eglErrorString w.eglError ++ "\n") },
      ?_, rfl, rfl, rfl⟩
    simp [egl_check_error, hw]
  · intro msg w hw
    refine ⟨{ w with
      eglError := EGL_SUCCESS
      trace := w.trace ++ [Event.egl_check_error msg w.eglError] }, ?_, rfl, rfl, rfl⟩
    simp [egl_check_error, hw]
  · rw [hw]; simp [lateExit, Run.world, glAfterRead, he, envWaitError, envOk]
  · rw [hw]
    exact ⟨trace6 envWaitError EGL_SUCCESS ++
      loopEvents envWaitError 10 (GLState.initial envWaitError.surfaceContents), rfl⟩
  · rw [hw]; rfl
  · rw [hw]; decide

/-- C9, as stated, fails on a run in which every check passes: between the
file write and `eglTerminate` the program calls `eglWaitGL` once more. -/
theorem stated_steps_differ :
    ChecksPass (main envOk).world.trace ∧
    (main envOk).world.trace.filter Event.isStep ≠ statedSteps envOk := by
  refine ⟨(checksPass_iff envOk).2 envOk_allSuccess, ?_⟩
  rw [main_of_allSuccess envOk envOk_allSuccess]
  simp only [successRun, Run.world, steps_trace8]
  intro h
  have hl := congrArg List.length h
  simp [actualSteps, statedSteps] at hl

/-- C9, amended. In a run of `main` in which every check passes, the
lifecycle steps are, in this order: get the default display, initialize it,
choose the configuration, create the 512x512 pbuffer surface, bind the OpenGL
API, create one context sharing with no other, make it current on the
surface for draw and read, call `render` 10 times, wait for rendering, read
the pixels back, write the file, wait for rendering once more, terminate the
display. The display is terminated once, by the last call of the trace. -/
theorem lifecycle_steps (env : Env) (h : ChecksPass (main env).world.trace) :
    (main env).world.trace.filter Event.isStep = actualSteps env ∧
    (main env).world.trace.countP Event.isTerminate = 1 ∧
    (main env).world.trace.getLast? = some (Event.eglTerminate env.display) := by
  rw [main_of_allSuccess env ((checksPass_iff env).1 h)]
  refine ⟨steps_trace8 env, ?_, ?_⟩
  · have hl := countP_eq_zero_of_inRender Event.isTerminate inRender_not_terminate env 10
      (GLState.initial env.surfaceContents)
    simp only [successRun, Run.world, trace8, trace7, List.countP_append, hl]
    rfl
  · simp [successRun, Run.world, trace8]

/-- The amended C9 on a driver on which every call succeeds. -/
theorem lifecycle_steps_witness :
    ChecksPass (main envOk).world.trace ∧
    (main envOk).world.trace.filter Event.isStep = actualSteps envOk :=
  ⟨(checksPass_iff envOk).2 envOk_allSuccess,
    (lifecycle_steps envOk ((checksPass_iff envOk).2 envOk_allSuccess)).1⟩

/-- C10. `eglErrorString` returns `No error` exactly for `EGL_SUCCESS`; on
the fifteen recognised codes, which are distinct, it is injective and never
returns `Unknown error `; for every other integer it returns `Unknown error `
with the trailing space. -/
theorem eglErrorString_spec :
    (∀ e, eglErrorString e = "No error" ↔ e = EGL_SUCCESS) ∧
    recognisedCodes.length = 15 ∧ recognisedCodes.Nodup ∧
    (∀ a ∈ recognisedCodes, ∀ b ∈ recognisedCodes,
      eglErrorString a = eglErrorString b → a = b) ∧
    (∀ a ∈ recognisedCodes, eglErrorString a ≠ "Unknown error ") ∧
    (∀ e, e ∉ recognisedCodes → eglErrorString e = "Unknown error ") := by
  refine ⟨?_, by decide, by decide, by decide, by decide, eglErrorString_unknown⟩
  intro e
  constructor
  · intro h
    by_cases he : e ∈ recognisedCodes
    · have hrec : ∀ a ∈ recognisedCodes, eglErrorString a = "No error" → a = EGL_SUCCESS := by
        decide
      exact hrec e he h
    · rw [eglErrorString_unknown e he] at h
      exact absurd h (by decide)
  · rintro rfl
    decide

end EglOffscreen
